import Mathlib

/-!
Shallow embedding of the covid_abm_mesa epidemic simulation.

Sources embedded here:
  * `src/disease_params.py` — age-stratified parameter tables, samplers and
    the vaccine-efficacy curve;
  * `src/contact_network.py` — contact layers, the household/workplace/school
    builders and `get_contacts`;
  * `src/agent.py` — the `Human` agent: `status`, `infect`, `interact`,
    `move`, `update_Wealth`, `step`;
  * `src/model.py` — the legacy `InfectionModel` coordinator (its own
    `Human`, `compute`, `compute_wealth`, `step`, `run_model`).

Randomness is modelled by explicit streams: the model-owned seeded
`random.Random` source becomes a `Rng` value (a stream of uniform draws in
[0,1) as rationals together with a stream of integer-valued distribution
draws), and the process-global `numpy.random` source of the legacy model
becomes a separate stream.  A Python call `random.random()` consumes one
float draw; `int(rng.normalvariate(mu, sigma))`-style calls consume one
integer draw (the integer is the truncated sampled value, so the sampler
wrappers apply exactly the `max` floors of the source).
-/

namespace Covid

/-- Disease states, from `agent.py` (`InfectionState`). -/
inductive InfectionState where
  | SUSCEPTIBLE
  | INFECTED
  | RECOVERED
  | DIED
  | EXPOSED
deriving DecidableEq, Repr

/-- Severity substates, from `agent.py` (`InfectionSeverity`). -/
inductive InfectionSeverity where
  | Asymptomatic
  | Quarantined
  | Severe
deriving DecidableEq, Repr

/-- Contact layers, from `contact_network.py` (`ContactLayer`). -/
inductive ContactLayer where
  | HOUSEHOLD
  | WORKPLACE
  | SCHOOL
  | COMMUNITY
deriving DecidableEq, Repr

/-- Vaccine dose levels, the keys of `VACCINE_PARAMS` in `disease_params.py`. -/
inductive DoseLevel where
  | dose_1
  | dose_2
  | booster
deriving DecidableEq, Repr

/-- Efficacy dimensions, the per-dose keys of `VACCINE_PARAMS`. -/
inductive EffKey where
  | efficacy_infection
  | efficacy_symptomatic
  | efficacy_severe
  | efficacy_death
deriving DecidableEq, Repr

/-- Age-group index: the nine bands `[0,10), …, [70,80), [80,120)` of
`AGE_GROUPS` in `disease_params.py`. -/
def AGE_GROUPS : List (ℚ × ℚ) :=
  [(0, 10), (10, 20), (20, 30), (30, 40), (40, 50),
   (50, 60), (60, 70), (70, 80), (80, 120)]

/-- Translation of `get_age_group`: first band `(lo, hi)` with
`lo ≤ age < hi`, defaulting to the final band. -/
def get_age_group (age : ℚ) : ℚ × ℚ :=
  (AGE_GROUPS.find? (fun g => decide (g.1 ≤ age ∧ age < g.2))).getD (80, 120)

/-- The `IFR_BY_AGE` table of `disease_params.py` as a function on bands. -/
def IFR_BY_AGE (g : ℚ × ℚ) : ℚ :=
  if g = (0, 10) then 2/100000
  else if g = (10, 20) then 6/100000
  else if g = (20, 30) then 2/10000
  else if g = (30, 40) then 5/10000
  else if g = (40, 50) then 2/1000
  else if g = (50, 60) then 6/1000
  else if g = (60, 70) then 2/100
  else if g = (70, 80) then 6/100
  else 10/100

/-- The `HOSPITALIZATION_RATE_BY_AGE` table of `disease_params.py`. -/
def HOSPITALIZATION_RATE_BY_AGE (g : ℚ × ℚ) : ℚ :=
  if g = (0, 10) then 1/1000
  else if g = (10, 20) then 3/1000
  else if g = (20, 30) then 12/1000
  else if g = (30, 40) then 32/1000
  else if g = (40, 50) then 49/1000
  else if g = (50, 60) then 102/1000
  else if g = (60, 70) then 166/1000
  else if g = (70, 80) then 243/1000
  else 273/1000

/-- The `SYMPTOMATIC_RATE_BY_AGE` table of `disease_params.py`. -/
def SYMPTOMATIC_RATE_BY_AGE (g : ℚ × ℚ) : ℚ :=
  if g = (0, 10) then 50/100
  else if g = (10, 20) then 55/100
  else if g = (20, 30) then 60/100
  else if g = (30, 40) then 65/100
  else if g = (40, 50) then 70/100
  else if g = (50, 60) then 75/100
  else if g = (60, 70) then 80/100
  else if g = (70, 80) then 85/100
  else 90/100

/-- The `SUSCEPTIBILITY_BY_AGE` table of `disease_params.py`. -/
def SUSCEPTIBILITY_BY_AGE (g : ℚ × ℚ) : ℚ :=
  if g = (0, 10) then 34/100
  else if g = (10, 20) then 67/100
  else if g = (60, 70) then 124/100
  else if g = (70, 80) then 147/100
  else if g = (80, 120) then 147/100
  else 1

/-- The `TRANSMISSIBILITY_BY_AGE` table of `disease_params.py`. -/
def TRANSMISSIBILITY_BY_AGE (g : ℚ × ℚ) : ℚ :=
  if g = (0, 10) then 50/100
  else if g = (10, 20) then 75/100
  else 1

/-- Translation of `get_param_for_age`. -/
def get_param_for_age (age : ℚ) (tbl : ℚ × ℚ → ℚ) : ℚ :=
  tbl (get_age_group age)

/-- Per-dose entry of `VACCINE_PARAMS` in `disease_params.py`. -/
structure VaccineDoseParams where
  efficacy_infection : ℚ
  efficacy_symptomatic : ℚ
  efficacy_severe : ℚ
  efficacy_death : ℚ
  days_to_effect : ℕ
deriving DecidableEq, Repr

/-- The `VACCINE_PARAMS` table (per-dose part). -/
def VACCINE_PARAMS : DoseLevel → VaccineDoseParams
  | .dose_1 => ⟨52/100, 65/100, 80/100, 85/100, 14⟩
  | .dose_2 => ⟨79/100, 90/100, 95/100, 98/100, 7⟩
  | .booster => ⟨85/100, 95/100, 98/100, 99/100, 7⟩

/-- The shared `waning_halflife_days` entry of `VACCINE_PARAMS`. -/
def waning_halflife_days : ℕ := 120

/-- Project one efficacy dimension out of a `VaccineDoseParams` entry
(the `params[param_key]` lookup). -/
def VaccineDoseParams.get (p : VaccineDoseParams) : EffKey → ℚ
  | .efficacy_infection => p.efficacy_infection
  | .efficacy_symptomatic => p.efficacy_symptomatic
  | .efficacy_severe => p.efficacy_severe
  | .efficacy_death => p.efficacy_death

/-- Translation of `get_vaccine_efficacy` in `disease_params.py`: linear
ramp over `days_to_effect` days, then exponential decay by the shared
half-life (`0.5 ** (days_waning / halflife)`). -/
noncomputable def get_vaccine_efficacy (dose : DoseLevel)
    (days_since_vaccination : ℕ) (param_key : EffKey) : ℝ :=
  let params := VACCINE_PARAMS dose
  if days_since_vaccination < params.days_to_effect then
    (params.get param_key : ℝ) *
      ((days_since_vaccination : ℝ) / (params.days_to_effect : ℝ))
  else
    let days_waning : ℝ :=
      (days_since_vaccination : ℝ) - (params.days_to_effect : ℝ)
    (params.get param_key : ℝ) *
      ((1 / 2 : ℝ) ^ (days_waning / (waning_halflife_days : ℝ)) : ℝ)

/-- Explicit model of the shared seeded random source: a stream of uniform
draws in `[0,1)` (`random.random()`) and a stream of integer-valued
distribution draws (the truncated value of a `normalvariate` /
`lognormvariate` call, before any `max` floor is applied). -/
structure Rng where
  floats : List ℚ
  ints : List ℤ
deriving DecidableEq, Repr

/-- Consume one uniform draw (`random.random()`); an exhausted stream
yields 0. -/
def Rng.nextFloat : Rng → ℚ × Rng
  | ⟨f :: fs, zs⟩ => (f, ⟨fs, zs⟩)
  | ⟨[], zs⟩ => (0, ⟨[], zs⟩)

/-- Consume one integer-valued distribution draw. -/
def Rng.nextInt : Rng → ℤ × Rng
  | ⟨fs, z :: zs⟩ => (z, ⟨fs, zs⟩)
  | ⟨fs, []⟩ => (0, ⟨fs, []⟩)

/-- Translation of `sample_incubation_period`:
`max(1, int(rng.lognormvariate(log(5.1), 0.3)))`. -/
def sample_incubation_period (g : Rng) : ℕ × Rng :=
  let (z, g') := g.nextInt
  ((max 1 z).toNat, g')

/-- Translation of `sample_infectious_duration`:
`max(3, int(rng.normalvariate(10.0, 3.0)))`. -/
def sample_infectious_duration (g : Rng) : ℕ × Rng :=
  let (z, g') := g.nextInt
  ((max 3 z).toNat, g')

/-- The `LAYER_TRANSMISSION_MULTIPLIER` table of `contact_network.py`. -/
def LAYER_TRANSMISSION_MULTIPLIER : ContactLayer → ℚ
  | .HOUSEHOLD => 3
  | .WORKPLACE => 6/10
  | .SCHOOL => 6/10
  | .COMMUNITY => 3/10

/-- The `LAYER_DAILY_CONTACTS` table of `contact_network.py`
(`none` for the household layer, whose contacts are the whole group). -/
def LAYER_DAILY_CONTACTS : ContactLayer → Option ℕ
  | .HOUSEHOLD => none
  | .WORKPLACE => some 8
  | .SCHOOL => some 12
  | .COMMUNITY => some 4

/-- The `Human` agent of `agent.py`.  Object identity is modelled by the
`uid` field (mesa's `unique_id`); group membership lists hold the member
uids (the Python lists hold the member objects themselves, including the
owner). -/
structure Human where
  uid : ℕ
  age : ℚ
  is_student : Bool
  state : InfectionState
  severity : InfectionSeverity
  infection_time : ℕ
  incubation_period : ℕ
  recovery_time : ℕ
  induced_infections : ℕ
  infected_others : Bool
  symptoms : ℤ
  susceptibility : ℚ
  transmissibility : ℚ
  ifr : ℚ
  hospitalization_rate : ℚ
  symptomatic_rate : ℚ
  vaccinated : Bool
  vaccine_dose : Option DoseLevel
  vaccination_day : ℕ
  immunity_wane_day : ℕ
  household_id : ℤ
  household_members : List ℕ
  workplace_id : ℤ
  workplace_members : List ℕ
  school_id : ℤ
  school_members : List ℕ
  social_stratum : ℕ
  wealth : ℚ
  income : ℚ
  expanditure : ℚ
  pos : ℕ × ℕ
deriving DecidableEq, Repr

/-- The model attributes read by the agent code (`self.model.…`):
current day counter, severe-case count, hospital capacity, the effective
transmission / mobility / reinfection parameters. -/
structure ModelEnv where
  steps : ℕ
  severe : ℕ
  hospital_capacity : ℕ
  ptrans : ℚ
  reinfection_rate : ℚ
  mov_prob : ℚ
deriving DecidableEq, Repr

/-- Translation of `Human.get_vaccine_protection`: zero for an
unvaccinated agent, otherwise the current efficacy for the days elapsed
since the recorded vaccination day. -/
noncomputable def Human.get_vaccine_protection (a : Human) (env : ModelEnv)
    (param_key : EffKey) : ℝ :=
  match a.vaccinated, a.vaccine_dose with
  | true, some dose => get_vaccine_efficacy dose (env.steps - a.vaccination_day) param_key
  | _, _ => 0

open Classical in
/-- Translation of the `EXPOSED` branch of `Human.status`: once
`model.steps - infection_time ≥ incubation_period` the agent turns
INFECTED and samples its symptom-onset offset (a short normal draw when
symptomatic, the sentinel 999 otherwise). -/
noncomputable def Human.statusExposed (a : Human) (env : ModelEnv) (g : Rng) :
    Human × Rng :=
  let time_exposed : ℤ := (env.steps : ℤ) - (a.infection_time : ℤ)
  if time_exposed ≥ (a.incubation_period : ℤ) then
    let (f, g1) := g.nextFloat
    if (f : ℚ) < a.symptomatic_rate then
      let (z, g2) := g1.nextInt
      ({a with state := .INFECTED, symptoms := max 1 z}, g2)
    else
      ({a with state := .INFECTED, symptoms := 999}, g1)
  else (a, g)

open Classical in
/-- Translation of the tail of the `INFECTED` branch of `Human.status`
(everything after the death roll): the severe-flip roll, the symptom-onset
quarantine check, and the recovery check with the immunity-wane draw. -/
noncomputable def Human.statusInfectedRest (a : Human) (env : ModelEnv) (g : Rng) :
    Human × Rng :=
  let (a1, g1) :=
    if a.severity = .Asymptomatic ∨ a.severity = .Quarantined then
      let vax_protection := a.get_vaccine_protection env .efficacy_severe
      let hosp_rate : ℝ := (a.hospitalization_rate : ℝ) * (1 - vax_protection)
      let daily_severe_prob : ℝ := hosp_rate / (max 1 (a.recovery_time : ℝ))
      let (f, g') := g.nextFloat
      (if (f : ℝ) < daily_severe_prob then {a with severity := .Severe} else a, g')
    else (a, g)
  let time_infected : ℤ := (env.steps : ℤ) - (a1.infection_time : ℤ)
  let a2 :=
    if time_infected ≥ a1.symptoms then
      if a1.severity ≠ .Severe then {a1 with severity := .Quarantined} else a1
    else a1
  if time_infected ≥ (a2.recovery_time : ℤ) then
    let (z, g2) := g1.nextInt
    ({a2 with state := .RECOVERED, severity := .Asymptomatic,
              immunity_wane_day := env.steps + (max 30 z).toNat}, g2)
  else (a2, g1)

open Classical in
/-- Translation of `Human.status` in `agent.py`.  The `INFECTED` branch
first draws the death roll when severity is Severe (daily probability
`min(0.99, ifr / max(1, max(1, recovery_time - symptoms)))`, tripled and
re-capped under hospital overflow, then scaled by one minus the vaccine
efficacy against death); a positive roll returns immediately with state
DIED and nothing else changed. -/
noncomputable def Human.status (a : Human) (env : ModelEnv) (g : Rng) :
    Human × Rng :=
  match a.state with
  | .EXPOSED => a.statusExposed env g
  | .INFECTED =>
    if a.severity = .Severe then
      let severe_duration : ℤ := max 1 ((a.recovery_time : ℤ) - a.symptoms)
      let daily_death_prob : ℝ :=
        min (99/100 : ℝ) ((a.ifr : ℝ) / (max 1 (severe_duration : ℝ)))
      let daily_death_prob : ℝ :=
        if env.severe ≥ env.hospital_capacity then
          min (99/100 : ℝ) (daily_death_prob * 3) else daily_death_prob
      let vax_protection := a.get_vaccine_protection env .efficacy_death
      let daily_death_prob := daily_death_prob * (1 - vax_protection)
      let (f, g1) := g.nextFloat
      if (f : ℝ) < daily_death_prob then ({a with state := .DIED}, g1)
      else a.statusInfectedRest env g1
    else a.statusInfectedRest env g
  | .RECOVERED =>
    let a1 := {a with severity := .Asymptomatic}
    if env.steps ≥ a1.immunity_wane_day then ({a1 with state := .SUSCEPTIBLE}, g)
    else (a1, g)
  | _ => (a, g)

open Classical in
/-- Translation of `Human.infect` in `agent.py`: the layered,
age-stratified transmission attempt of an INFECTED sender against one
receiver.  Returns the updated sender, the updated receiver and the
advanced random source. -/
noncomputable def Human.infect (s other : Human) (layer : ContactLayer)
    (env : ModelEnv) (g : Rng) : Human × Human × Rng :=
  if s.state ≠ .INFECTED then (s, other, g) else
  let ptrans : ℝ := (env.ptrans : ℝ)
  let ptrans := ptrans * (LAYER_TRANSMISSION_MULTIPLIER layer : ℝ)
  let ptrans := ptrans * (s.transmissibility : ℝ)
  let ptrans := ptrans * (other.susceptibility : ℝ)
  let vax_protection := other.get_vaccine_protection env .efficacy_infection
  let ptrans : ℝ := ptrans * (1 - vax_protection)
  if other.state = .SUSCEPTIBLE ∨ other.state = .EXPOSED then
    let (f, g1) := g.nextFloat
    if (f : ℝ) < ptrans then
      if other.state = .SUSCEPTIBLE then
        let (inc, g2) := sample_incubation_period g1
        let (dur, g3) := sample_infectious_duration g2
        ({s with induced_infections := s.induced_infections + 1, infected_others := true},
         {other with state := .EXPOSED, infection_time := env.steps,
                     incubation_period := inc, recovery_time := inc + dur}, g3)
      else (s, other, g1)
    else (s, other, g1)
  else if other.state = .RECOVERED then
    let reinfection_ptrans := ptrans * (env.reinfection_rate : ℝ)
    let (f, g1) := g.nextFloat
    if (f : ℝ) < reinfection_ptrans then
      let (inc, g2) := sample_incubation_period g1
      let (dur, g3) := sample_infectious_duration g2
      ({s with induced_infections := s.induced_infections + 1, infected_others := true},
       {other with state := .EXPOSED, infection_time := env.steps,
                   incubation_period := inc, recovery_time := inc + dur}, g3)
    else (s, other, g1)
  else (s, other, g)

open Classical in
/-- Transmission loop body shared by the four layers of `Human.interact`:
`for other in contacts: if other.state != DIED: self.infect(other, layer)`.
The receivers are threaded as a list of agent values; the sender update of
each `infect` call is carried into the next one. -/
noncomputable def Human.infectAll (s : Human) (contacts : List Human)
    (layer : ContactLayer) (env : ModelEnv) (g : Rng) :
    Human × List Human × Rng :=
  match contacts with
  | [] => (s, [], g)
  | o :: rest =>
    let (s1, o1, g1) :=
      if o.state ≠ .DIED then Human.infect s o layer env g else (s, o, g)
    let (s2, rest1, g2) := Human.infectAll s1 rest layer env g1
    (s2, o1 :: rest1, g2)

open Classical in
/-- Translation of `Human.interact` in `agent.py`.  The contact lists of
the four layers are passed in resolved form (household contacts, the
sampled workplace and school contacts, and the community cell occupants,
in which the code additionally skips the agent itself by identity). -/
noncomputable def Human.interact (a : Human)
    (hh wp sc comm : List Human) (env : ModelEnv) (g : Rng) :
    Human × (List Human × List Human × List Human × List Human) × Rng :=
  if a.state ≠ .INFECTED then (a, (hh, wp, sc, comm), g)
  else if a.severity = .Severe then (a, (hh, wp, sc, comm), g)
  else
    let (a1, hh1, g1) := Human.infectAll a hh .HOUSEHOLD env g
    if a1.severity = .Quarantined then (a1, (hh1, wp, sc, comm), g1)
    else
      let (f1, g2) := g1.nextFloat
      let (a2, wp1, g3) :=
        if f1 < env.mov_prob then Human.infectAll a1 wp .WORKPLACE env g2
        else (a1, wp, g2)
      let (f2, g4) := g3.nextFloat
      let (a3, sc1, g5) :=
        if f2 < env.mov_prob then Human.infectAll a2 sc .SCHOOL env g4
        else (a2, sc, g4)
      let (f3, g6) := g5.nextFloat
      let (a4, comm1, g7) :=
        if f3 < env.mov_prob then
          Human.infectAll a3 (comm.filter (fun o => o.uid ≠ a3.uid)) .COMMUNITY env g6
        else (a3, comm.filter (fun o => o.uid ≠ a3.uid), g6)
      (a4, (hh1, wp1, sc1, comm1), g7)

/-- Index selection for `random.choice(seq)`: the element at
`int(random() * len(seq))`. -/
def choiceIdx (f : ℚ) (n : ℕ) : ℕ := (f * n).floor.toNat % max 1 n

/-- Translation of `Human.move` in `agent.py`: only non-Severe severity
moves, gated by the mobility probability; the possible steps (the Moore
neighborhood including the center, resolved by the grid) are passed in. -/
def Human.move (a : Human) (possible_steps : List (ℕ × ℕ)) (env : ModelEnv)
    (g : Rng) : Human × Rng :=
  if a.severity = .Asymptomatic then
    let (f, g1) := g.nextFloat
    if f < env.mov_prob then
      let (f2, g2) := g1.nextFloat
      ({a with pos := (possible_steps.getD (choiceIdx f2 possible_steps.length) a.pos)}, g2)
    else (a, g1)
  else (a, g)

/-- The `lorenz_curve`-derived `basic_income` array of `agent.py`
(`lorenz_curve / min(lorenz_curve)`). -/
def basic_income (stratum : ℕ) : ℚ :=
  [(1 : ℚ), 2, 13/4, 5, 55/4].getD stratum 0

/-- Translation of `Human.getAgentIncome`. -/
def Human.getAgentIncome (a : Human) (env : ModelEnv) (g : Rng) : ℚ × Rng :=
  if a.state ≠ .DIED ∧ a.severity = .Asymptomatic then
    if a.age ≥ 18 then
      let (f, g1) := g.nextFloat
      if f < env.mov_prob then
        let (f1, g2) := g1.nextFloat
        let (f2, g3) := g2.nextFloat
        (basic_income a.social_stratum + f1 * f2 * basic_income a.social_stratum, g3)
      else (0, g1)
    else (0, g)
  else (0, g)

/-- Translation of `Human.getAgentExpense`. -/
def Human.getAgentExpense (a : Human) (g : Rng) : ℚ × Rng :=
  let (f, g1) := g.nextFloat
  (f * basic_income a.social_stratum, g1)

/-- Translation of `Human.update_Wealth`. -/
def Human.update_Wealth (a : Human) (env : ModelEnv) (g : Rng) : Human × Rng :=
  let (inc, g1) := a.getAgentIncome env g
  let (exp, g2) := a.getAgentExpense g1
  ({a with income := inc, expanditure := exp,
           wealth := a.wealth + inc - exp}, g2)

open Classical in
/-- Translation of `Human.step` in `agent.py`: a DIED agent returns
immediately; otherwise status, movement, interaction and the wealth
update run in order.  Grid data (possible steps, community cell
occupants) and the resolved contact lists are passed in. -/
noncomputable def Human.step (a : Human) (possible_steps : List (ℕ × ℕ))
    (hh wp sc comm : List Human) (env : ModelEnv) (g : Rng) :
    Human × (List Human × List Human × List Human × List Human) × Rng :=
  if a.state = .DIED then (a, (hh, wp, sc, comm), g)
  else
    let (a1, g1) := a.status env g
    let (a2, g2) := a1.move possible_steps env g1
    let (a3, lists, g3) := a2.interact hh wp sc comm env g2
    let (a4, g4) := a3.update_Wealth env g3
    (a4, lists, g4)

/-- Model of `rng.sample(others, k)`: draw `k` elements without
replacement, each pick indexed by the next integer draw modulo the
remaining pool size. -/
def Rng.sample (l : List ℕ) : ℕ → Rng → List ℕ × Rng
  | 0, g => ([], g)
  | k + 1, g =>
    if _h : l.length = 0 then ([], g)
    else
      let (z, g1) := g.nextInt
      let i := z.natAbs % l.length
      let x := l.getD i 0
      let (xs, g2) := Rng.sample (l.eraseIdx i) k g1
      (x :: xs, g2)

/-- Translation of `get_contacts` in `contact_network.py`.  Results are
member uids; `none` is the COMMUNITY sentinel (`return None`, grid-based
contacts are resolved by the caller). -/
def get_contacts (agent : Human) (layer : ContactLayer) (g : Rng)
    (max_contacts : Option ℕ := none) : Option (List ℕ) × Rng :=
  match layer with
  | .HOUSEHOLD =>
    (some (agent.household_members.filter (fun u => u ≠ agent.uid)), g)
  | .WORKPLACE =>
    let members := agent.workplace_members
    if members = [] then (some [], g)
    else
      let others := members.filter (fun u => u ≠ agent.uid)
      let cap := match max_contacts with
        | some m => if m = 0 then (LAYER_DAILY_CONTACTS .WORKPLACE).getD 0 else m
        | none => (LAYER_DAILY_CONTACTS .WORKPLACE).getD 0
      let n_contacts := min others.length cap
      if n_contacts = 0 then (some [], g)
      else
        let (res, g1) := Rng.sample others (min n_contacts others.length) g
        (some res, g1)
  | .SCHOOL =>
    let members := agent.school_members
    if members = [] then (some [], g)
    else
      let others := members.filter (fun u => u ≠ agent.uid)
      let cap := match max_contacts with
        | some m => if m = 0 then (LAYER_DAILY_CONTACTS .SCHOOL).getD 0 else m
        | none => (LAYER_DAILY_CONTACTS .SCHOOL).getD 0
      let n_contacts := min others.length cap
      if n_contacts = 0 then (some [], g)
      else
        let (res, g1) := Rng.sample others (min n_contacts others.length) g
        (some res, g1)
  | .COMMUNITY => (none, g)

/-- Model of `rng.shuffle`: repeatedly pick a remaining element, indexed
by the next integer draw modulo the remaining pool size (a uniform random
permutation of the input). -/
def Rng.shuffle (l : List α) (g : Rng) : List α × Rng :=
  match l with
  | [] => ([], g)
  | x :: xs =>
    let (z, g1) := g.nextInt
    let i := z.natAbs % (x :: xs).length
    let picked := (x :: xs).getD i x
    let (rest, g2) := Rng.shuffle ((x :: xs).eraseIdx i) g1
    (picked :: rest, g2)
termination_by l.length
decreasing_by
  have h2 : z.natAbs % (x :: xs).length < (x :: xs).length :=
    Nat.mod_lt _ (by simp)
  simp only [List.length_eraseIdx]
  split <;> omega

/-- The household-size draw of `build_households`:
`rng.choices([1,2,3,4,5], weights=[.28,.34,.16,.14,.08])`, modelled by
one uniform draw against the cumulative weights. -/
def householdSizeDraw (f : ℚ) : ℕ :=
  if f < 28/100 then 1
  else if f < 62/100 then 2
  else if f < 78/100 then 3
  else if f < 92/100 then 4
  else 5

/-- Model of `rng.randint(lo, hi)` (inclusive bounds): the next integer
draw reduced into `[lo, hi]`. -/
def Rng.randint (lo hi : ℕ) (g : Rng) : ℕ × Rng :=
  let (z, g1) := g.nextInt
  (lo + z.natAbs % (hi + 1 - lo), g1)

/-- Greedy slicing loop shared by the three builders: draw a group size,
clip it to the remaining pool (`size = min(size, len(shuffled) - idx)`),
slice the group off, record its member uids, stamp each member with the
group index and the membership list, and continue.  `drawSize` performs
the builder-specific size draw and `stamp` the builder-specific field
assignment; `drawSize` must return a positive size. -/
def sliceGroups (drawSize : Rng → ℕ × Rng)
    (stamp : Human → ℤ → List ℕ → Human) :
    List Human → Rng → ℕ → List Human × List (List ℕ) × Rng
  | [], g, _ => ([], [], g)
  | x :: xs, g, idx =>
    let l := x :: xs
    let (size, g1) := drawSize g
    let size := min (max 1 size) l.length
    let grp := l.take size
    let grpIds := grp.map Human.uid
    let grp' := grp.map (fun a => stamp a (idx : ℤ) grpIds)
    let (rest', groups, g2) := sliceGroups drawSize stamp (l.drop size) g1 (idx + 1)
    (grp' ++ rest', grpIds :: groups, g2)
termination_by l _ _ => l.length
decreasing_by simp [List.length_drop]

/-- Translation of `build_households` in `contact_network.py`: shuffle
the whole collection, slice it greedily by the census size distribution
and stamp `household_id` / `household_members`.  Returns the updated
agents (a permutation of the input), the household uid groups and the
advanced random source. -/
def build_households (agents : List Human) (g : Rng) :
    List Human × List (List ℕ) × Rng :=
  let (shuffled, g1) := Rng.shuffle agents g
  sliceGroups
    (fun g => let (f, g') := g.nextFloat; (householdSizeDraw f, g'))
    (fun a i ids => {a with household_id := i, household_members := ids})
    shuffled g1 0

/-- The worker filter of `build_workplaces`:
`18 <= a.age <= 65 and not a.is_student`. -/
def isWorker (a : Human) : Bool := 18 ≤ a.age ∧ a.age ≤ 65 ∧ ¬a.is_student

/-- Translation of `build_workplaces` in `contact_network.py`: shuffle
the working-age non-students, slice into groups of `randint(5, 30)` and
stamp `workplace_id` / `workplace_members`.  Non-workers are carried
through untouched. -/
def build_workplaces (agents : List Human) (g : Rng) :
    List Human × List (List ℕ) × Rng :=
  let workers := agents.filter isWorker
  let (shuffled, g1) := Rng.shuffle workers g
  let (workers', groups, g2) :=
    sliceGroups (fun g => Rng.randint 5 30 g)
      (fun a i ids => {a with workplace_id := i, workplace_members := ids})
      shuffled g1 0
  (workers' ++ agents.filter (fun a => ¬isWorker a), groups, g2)

/-- The student filter of `build_schools`: `5 <= a.age <= 22`. -/
def isStudentAge (a : Human) : Bool := 5 ≤ a.age ∧ a.age ≤ 22

/-- Translation of `build_schools` in `contact_network.py`: shuffle the
school-age agents, set `is_student = True` on each of them, slice into
classes of `randint(15, 35)` and stamp `school_id` / `school_members`.
Non-students are carried through untouched. -/
def build_schools (agents : List Human) (g : Rng) :
    List Human × List (List ℕ) × Rng :=
  let students := agents.filter isStudentAge
  let (shuffled, g1) := Rng.shuffle students g
  let flagged := shuffled.map (fun a => {a with is_student := true})
  let (students', groups, g2) :=
    sliceGroups (fun g => Rng.randint 15 35 g)
      (fun a i ids => {a with school_id := i, school_members := ids})
      flagged g1 0
  (students' ++ agents.filter (fun a => ¬isStudentAge a), groups, g2)

/-- Modelled from the spec: the coordinator that invokes the three
builders over the agent collection is not part of `src/` (nothing in the
repository calls `build_households` / `build_workplaces` /
`build_schools`).  Section 4.2 of the spec states that school and
workplace membership are mutually exclusive *because* workplace
assignment excludes agents flagged as students, which fixes the build
order: schools flag their students before workplaces are drawn.  Each
builder itself is the translation from `contact_network.py` above. -/
def build_contact_network (agents : List Human) (g : Rng) :
    List Human × List (List ℕ) × List (List ℕ) × List (List ℕ) × Rng :=
  let (a1, households, g1) := build_households agents g
  let (a2, schools, g2) := build_schools a1 g1
  let (a3, workplaces, g3) := build_workplaces a2 g2
  (a3, households, workplaces, schools, g3)

/-- Number of groups of `groups` containing the uid `u` (used to state
"belongs to exactly/at most one group"). -/
def groupCount (u : ℕ) (groups : List (List ℕ)) : ℕ :=
  (groups.filter (fun grp => u ∈ grp)).length

namespace Legacy

/-- Severity values of the legacy `model.py` (`InfectionSeverity` there has
`Asymptomatic`, `Exposed`, `Hospitalization`, `Severe`). -/
inductive LSeverity where
  | Asymptomatic
  | Exposed
  | Hospitalization
  | Severe
deriving DecidableEq, Repr

/-- The model-owned seeded `random.Random` source of the legacy model: a
stream of uniform draws (`random.random()`, `choice`, `randrange`) and a
stream of standard-normal draws (`normalvariate(mu, sigma)` is modelled
as `mu + sigma * z`). -/
structure LRand where
  floats : List ℚ
  normals : List ℚ
deriving DecidableEq, Repr

/-- Consume one uniform draw from the seeded source. -/
def LRand.nextFloat : LRand → ℚ × LRand
  | ⟨f :: fs, zs⟩ => (f, ⟨fs, zs⟩)
  | ⟨[], zs⟩ => (0, ⟨[], zs⟩)

/-- Consume one standard-normal draw from the seeded source. -/
def LRand.nextNormal : LRand → ℚ × LRand
  | ⟨fs, z :: zs⟩ => (z, ⟨fs, zs⟩)
  | ⟨fs, []⟩ => (0, ⟨fs, []⟩)

/-- The process-global `numpy.random` source (`np.random.choice` in the
legacy model): a stream of uniform draws.  It is *not* part of the model
configuration and not derived from the model seed. -/
def NpRand := List ℚ
deriving DecidableEq, Repr

/-- Consume one uniform draw from the global numpy source. -/
def NpRand.next : NpRand → ℚ × NpRand
  | (f :: fs : List ℚ) => (f, fs)
  | ([] : List ℚ) => (0, ([] : List ℚ))

/-- Python `int(...)` truncation toward zero on a rational. -/
def pyInt (q : ℚ) : ℤ := if 0 ≤ q then ⌊q⌋ else -⌊-q⌋

/-- The legacy `Human` of `model.py`. -/
structure LHuman where
  uid : ℕ
  age : ℚ
  state : InfectionState
  severity : LSeverity
  infection_time : ℕ
  recovery_time : ℤ
  induced_infections : ℕ
  infected_others : Bool
  social_stratum : ℕ
  wealth : ℚ
  income : ℚ
  expanditure : ℚ
  pos : ℕ × ℕ
  inSchedule : Bool
deriving DecidableEq, Repr

/-- The configuration accepted by the legacy `InfectionModel.__init__`
(`progression_period` / `progression_sd` / `initial_immune_perc` are
stored but never read and are omitted). -/
structure Config where
  N : ℕ
  width : ℕ
  height : ℕ
  ptrans : ℚ
  reinfection_rate : ℚ
  severe_perc : ℚ
  death_rate : ℚ
  recovery_days : ℚ
  recovery_sd : ℚ
  initial_infected_perc : ℚ
deriving DecidableEq, Repr

/-- Default parameter values of `InfectionModel.__init__`. -/
def defaultConfig : Config :=
  { N := 10, width := 10, height := 10, ptrans := 1/4,
    reinfection_rate := 0, severe_perc := 18/100, death_rate := 193/10000,
    recovery_days := 21, recovery_sd := 7, initial_infected_perc := 1/5 }

/-- One per-step aggregate snapshot row of the legacy data collector
(model reporters `infected`, `recovered`, `susceptible`, `dead`, `R0`,
`severe_cases` and the five wealth-by-stratum totals). -/
structure Snapshot where
  infected : ℕ
  recovered : ℕ
  susceptible : ℕ
  dead : ℕ
  R0 : ℚ
  severe_cases : ℕ
  wealth_most_poor : ℚ
  wealth_poor : ℚ
  wealth_working_class : ℚ
  wealth_rich : ℚ
  wealth_most_rich : ℚ
deriving DecidableEq, Repr

/-- The `lorenz_curve` array of `model.py`. -/
def lorenz_curve (q : ℕ) : ℚ := [(1/25 : ℚ), 2/25, 13/100, 1/5, 11/20].getD q 0

/-- The legacy `InfectionModel` state: configuration, schedule time, the
agent collection, the dead list, the aggregate counters, and the two
random sources. -/
structure LModel where
  cfg : Config
  time : ℕ
  agents : List LHuman
  dead_agents : List ℕ
  susceptible : ℕ
  dead : ℕ
  recovered : ℕ
  infected : ℕ
  R0 : ℚ
  severe : ℕ
  total_wealth : ℚ
  wealth_most_poor : ℚ
  wealth_poor : ℚ
  wealth_working_class : ℚ
  wealth_rich : ℚ
  wealth_most_rich : ℚ
  rand : LRand
  np : NpRand
  snapshots : List Snapshot
deriving DecidableEq, Repr

/-- Agents currently in the scheduler (`self.schedule.agents`; a dead
agent is removed by `status` and no longer iterated). -/
def LModel.scheduleAgents (m : LModel) : List LHuman :=
  m.agents.filter (fun a => a.inSchedule)

/-- Update the stored agent with uid `u` (Python mutates the shared
object). -/
def LModel.setAgent (m : LModel) (u : ℕ) (a : LHuman) : LModel :=
  {m with agents := m.agents.map (fun b => if b.uid = u then a else b)}

/-- Look up the agent with uid `u`. -/
def LModel.getAgent (m : LModel) (u : ℕ) : Option LHuman :=
  m.agents.find? (fun b => b.uid = u)

/-- Translation of `InfectionModel.get_recovery_time`:
`int(random.normalvariate(recovery_days, recovery_sd))`. -/
def LModel.get_recovery_time (m : LModel) : ℤ × LModel :=
  let (z, r') := m.rand.nextNormal
  (pyInt (m.cfg.recovery_days + m.cfg.recovery_sd * z), {m with rand := r'})

/-- Model of `np.random.choice([0,1], p=[p0, 1-p0])`: one global-numpy
uniform draw against the first cumulative weight. -/
def npChoice01 (p0 : ℚ) (np : NpRand) : ℕ × NpRand :=
  let (f, np') := np.next
  (if f < p0 then 0 else 1, np')

/-- Creation of one legacy agent inside the `__init__` loop: the
`Human(i, self)` constructor draws (age, social stratum), the grid
placement draws (`randrange(width)`, `randrange(height)`), and the
initial-infection block (`np.random.choice` for infection, the seeded
recovery time, and the `np.random.choice`-based severity). -/
def createAgent (m : LModel) (i : ℕ) : LModel :=
  let (zAge, r1) := m.rand.nextNormal
  let age := 20 + 40 * zAge
  let (fStr, r2) := r1.nextFloat
  let stratum := choiceIdx fStr 5
  let (fx, r3) := r2.nextFloat
  let (fy, r4) := r3.nextFloat
  let x := choiceIdx fx m.cfg.width
  let y := choiceIdx fy m.cfg.height
  let a : LHuman :=
    { uid := i, age := age, state := .SUSCEPTIBLE, severity := .Exposed,
      infection_time := 0, recovery_time := 0, induced_infections := 0,
      infected_others := false, social_stratum := stratum, wealth := 0,
      income := basic_income stratum, expanditure := 0, pos := (x, y),
      inSchedule := true }
  let m1 := {m with rand := r4, agents := m.agents ++ [a]}
  let (infection, np1) := npChoice01 (1 - m.cfg.initial_infected_perc) m1.np
  if infection = 1 then
    let (rt, m2) := {m1 with np := np1}.get_recovery_time
    let (sev, np2) := npChoice01 (1 - m.cfg.severe_perc) m2.np
    if sev = 1 then
      {(m2.setAgent i {a with state := .INFECTED, recovery_time := rt,
                              severity := .Severe}) with np := np2}
    else
      let (fU, np3) := np2.next
      let sv : LSeverity := if fU < 1/2 then .Asymptomatic else .Hospitalization
      {(m2.setAgent i {a with state := .INFECTED, recovery_time := rt,
                              severity := sv}) with np := np3}
  else {m1 with np := np1}

/-- The wealth-distribution loop at the end of `InfectionModel.__init__`:
for each quintile, share `lorenz_curve[q] * total_wealth` equally among
the adult agents of that stratum (`qty` floored at 1). -/
def distributeWealth (m : LModel) : LModel :=
  let assign := fun (m' : LModel) (q : ℕ) =>
    let total := lorenz_curve q * m'.total_wealth
    let qty : ℚ := max 1 ((m'.scheduleAgents.filter
      (fun a => a.social_stratum = q ∧ a.age ≥ 18)).length : ℚ)
    let ag_share := total / qty
    {m' with agents := m'.agents.map (fun a =>
      if a.social_stratum = q ∧ a.age ≥ 18 then {a with wealth := ag_share} else a)}
  [0, 1, 2, 3, 4].foldl assign m

/-- Translation of the data-collection row (`datacollector.collect`). -/
def LModel.collect (m : LModel) : LModel :=
  {m with snapshots := m.snapshots ++
    [{ infected := m.infected, recovered := m.recovered,
       susceptible := m.susceptible, dead := m.dead, R0 := m.R0,
       severe_cases := m.severe, wealth_most_poor := m.wealth_most_poor,
       wealth_poor := m.wealth_poor,
       wealth_working_class := m.wealth_working_class,
       wealth_rich := m.wealth_rich,
       wealth_most_rich := m.wealth_most_rich }]}

/-- Translation of `InfectionModel.__init__`: store the configuration,
initialise the aggregates, create and place the `N` agents (with the
numpy-drawn initial infections), distribute the common wealth, and
collect the first snapshot.  The seeded source is the stream pair derived
from the seed; the numpy source is the ambient global stream. -/
def initModel (cfg : Config) (rand : LRand) (np : NpRand) : LModel :=
  let m0 : LModel :=
    { cfg := cfg, time := 0, agents := [], dead_agents := [],
      susceptible := cfg.N, dead := 0, recovered := 0, infected := 0,
      R0 := 0, severe := 0, total_wealth := 10 ^ 4,
      wealth_most_poor := lorenz_curve 0 * 10 ^ 4,
      wealth_poor := lorenz_curve 1 * 10 ^ 4,
      wealth_working_class := lorenz_curve 2 * 10 ^ 4,
      wealth_rich := lorenz_curve 3 * 10 ^ 4,
      wealth_most_rich := lorenz_curve 4 * 10 ^ 4,
      rand := rand, np := np, snapshots := [] }
  let m1 := (List.range cfg.N).foldl createAgent m0
  (distributeWealth m1).collect

/-- Translation of the legacy `Human.status`: an INFECTED agent first
draws the global-numpy death roll (`np.random.choice([0,1],
p=[death_rate, 1-death_rate])`); on death the state becomes DIED, the
agent is removed from the scheduler and appended to `dead_agents`; the
method then still performs the recovery check. -/
def statusL (m : LModel) (u : ℕ) : LModel :=
  match m.getAgent u with
  | none => m
  | some a =>
    if a.state = .INFECTED then
      let (alive, np1) := npChoice01 m.cfg.death_rate m.np
      let m1 := {m with np := np1}
      let (m2, a2) :=
        if alive = 0 then
          let aDead := {a with state := .DIED, inSchedule := false}
          ({(m1.setAgent u aDead) with dead_agents := m1.dead_agents ++ [u]}, aDead)
        else (m1, a)
      let time_passed : ℤ := (m.time : ℤ) - (a.infection_time : ℤ)
      if time_passed ≥ a2.recovery_time then
        m2.setAgent u {a2 with state := .RECOVERED}
      else m2
    else m

/-- The Moore neighborhood (including the center) of a cell on the
toroidal grid, deduplicated, as `mesa.space.MultiGrid.get_neighborhood`
returns it. -/
def neighborhood (w h : ℕ) (p : ℕ × ℕ) : List (ℕ × ℕ) :=
  (([p.1 + w - 1, p.1, p.1 + 1].map (· % max 1 w)).flatMap (fun x =>
    [p.2 + h - 1, p.2, p.2 + 1].map (fun y => (x, y % max 1 h)))).dedup

/-- Translation of the legacy `Human.move`: unconditional random move to
a neighboring cell (including staying put). -/
def moveL (m : LModel) (u : ℕ) : LModel :=
  match m.getAgent u with
  | none => m
  | some a =>
    let possible_steps := neighborhood m.cfg.width m.cfg.height a.pos
    let (f, r1) := m.rand.nextFloat
    let new_position := possible_steps.getD (choiceIdx f possible_steps.length) a.pos
    {(m.setAgent u {a with pos := new_position}) with rand := r1}

/-- Translation of the legacy `Human.infect`: an INFECTED sender rolls
the base transmission probability against a SUSCEPTIBLE receiver (or the
reinfection rate against a RECOVERED one); on success the receiver
becomes INFECTED immediately, gets a fresh recovery time, and its
severity is drawn (seeded roll for Severe, otherwise a global-numpy coin
between Asymptomatic and Hospitalization). -/
def infectL (m : LModel) (su ou : ℕ) : LModel :=
  match m.getAgent su, m.getAgent ou with
  | some s, some o =>
    if s.state = .INFECTED then
      if o.state = .SUSCEPTIBLE ∨ o.state = .RECOVERED then
        let p := if o.state = .SUSCEPTIBLE then m.cfg.ptrans else m.cfg.reinfection_rate
        let (f, r1) := m.rand.nextFloat
        if f < p then
          let (rt, m1) := {m with rand := r1}.get_recovery_time
          let o1 := {o with state := InfectionState.INFECTED, infection_time := m.time, recovery_time := rt}
          let m2 := m1.setAgent ou o1
          let s1 := {s with induced_infections := s.induced_infections + 1, infected_others := true}
          let m3 := m2.setAgent su s1
          let (f2, r2) := m3.rand.nextFloat
          let m4 := {m3 with rand := r2}
          if f2 < m.cfg.severe_perc then
            m4.setAgent ou {o1 with severity := LSeverity.Severe}
          else
            let (fU, np1) := m4.np.next
            let sv : LSeverity := if fU < 1/2 then .Asymptomatic else .Hospitalization
            {(m4.setAgent ou {o1 with severity := sv}) with np := np1}
        else {m with rand := r1}
      else m
    else m
  | _, _ => m

/-- Translation of the legacy `Human.interact`: visit every occupant of
the current cell (the agent itself included) and attempt infection on
each one that is not DIED at visit time. -/
def interactL (m : LModel) (u : ℕ) : LModel :=
  match m.getAgent u with
  | none => m
  | some a =>
    let neighbors := (m.agents.filter (fun b => b.pos = a.pos)).map LHuman.uid
    neighbors.foldl (fun m' ov =>
      match m'.getAgent ov with
      | some o => if o.state = .DIED then m' else infectL m' u ov
      | none => m') m

/-- Translation of the legacy `Human.update_Wealth` (income roll for
agents that are alive and not severe/hospitalised, expense roll for
everyone). -/
def updateWealthL (m : LModel) (u : ℕ) : LModel :=
  match m.getAgent u with
  | none => m
  | some a =>
    let (inc, r1) :=
      if a.state ≠ .DIED ∧ a.severity ≠ .Severe ∧ a.severity ≠ .Hospitalization then
        let (f1, r') := m.rand.nextFloat
        let (f2, r'') := r'.nextFloat
        (basic_income a.social_stratum + f1 * f2 * basic_income a.social_stratum, r'')
      else (0, m.rand)
    let (fe, r2) := r1.nextFloat
    let exp := fe * basic_income a.social_stratum
    let a1 := {a with income := inc, expanditure := exp, wealth := a.wealth + inc - exp}
    {(m.setAgent u a1) with rand := r2}

/-- One legacy agent step (`status`, `move`, `interact`,
`update_Wealth`). -/
def agentStepL (m : LModel) (u : ℕ) : LModel :=
  updateWealthL (interactL (moveL (statusL m u) u) u) u

/-- Shuffle of the scheduler order by the seeded source (the
`RandomActivation` buffer), one uniform pick per remaining element. -/
def shuffleL (l : List ℕ) (r : LRand) : List ℕ × LRand :=
  match l with
  | [] => ([], r)
  | x :: xs =>
    let (f, r1) := r.nextFloat
    let i := choiceIdx f (x :: xs).length
    let picked := (x :: xs).getD i x
    let (rest, r2) := shuffleL ((x :: xs).eraseIdx i) r1
    (picked :: rest, r2)
termination_by l.length
decreasing_by
  have h3 : (0 : ℕ) < (x :: xs).length := Nat.succ_pos _
  have h2 : choiceIdx f (x :: xs).length < (x :: xs).length := by
    unfold choiceIdx
    calc (((f * ((x :: xs).length : ℚ)).floor.toNat) % max 1 (x :: xs).length)
        < max 1 (x :: xs).length := Nat.mod_lt _ (by omega)
      _ = (x :: xs).length := by omega
  simp only [List.length_eraseIdx]
  split <;> omega

/-- Translation of `RandomActivation.step`: iterate the agents in a
freshly shuffled order, skipping those removed from the scheduler
mid-step, then advance the schedule clock. -/
def scheduleStepL (m : LModel) : LModel :=
  let (order, r1) := shuffleL (m.scheduleAgents.map LHuman.uid) m.rand
  let m1 := order.foldl (fun m' u =>
    match m'.getAgent u with
    | some a => if a.inSchedule then agentStepL m' u else m'
    | none => m') {m with rand := r1}
  {m1 with time := m1.time + 1}

/-- Translation of `InfectionModel.compute`: the R0 loop (for every agent
with `infected_others`, `self.R0` is overwritten with
`np.average(np.array(agent.induced_infections))`, i.e. with that agent's
own count), the state counters, and the dead count. -/
def computeL (m : LModel) : LModel :=
  let R0' := m.scheduleAgents.foldl
    (fun r a => if a.infected_others then (a.induced_infections : ℚ) else r) m.R0
  let recovered := (m.scheduleAgents.filter (fun a => a.state = .RECOVERED)).length
  let infected := (m.scheduleAgents.filter (fun a => a.state = .INFECTED)).length
  let severe := (m.scheduleAgents.filter
    (fun a => a.state = .INFECTED ∧ a.severity = .Severe)).length
  let susceptible := (m.scheduleAgents.filter (fun a => a.state = .SUSCEPTIBLE)).length
  { m with R0 := R0', recovered := recovered, infected := infected,
           severe := severe, susceptible := susceptible,
           dead := m.dead_agents.length }

/-- Translation of `InfectionModel.compute_wealth`: wealth totals per
stratum over the scheduled agents (the final `else` catches the top
stratum). -/
def computeWealthL (m : LModel) : LModel :=
  let sum := fun (p : LHuman → Bool) =>
    (m.scheduleAgents.filter p).foldl (fun s a => s + a.wealth) 0
  { m with
    wealth_most_poor := sum (fun a => a.social_stratum = 0),
    wealth_poor := sum (fun a => a.social_stratum = 1),
    wealth_working_class := sum (fun a => a.social_stratum = 2),
    wealth_rich := sum (fun a => a.social_stratum = 3),
    wealth_most_rich := sum (fun a =>
      a.social_stratum ≠ 0 ∧ a.social_stratum ≠ 1 ∧
      a.social_stratum ≠ 2 ∧ a.social_stratum ≠ 3) }

/-- Translation of `InfectionModel.step`: scheduler step, aggregation,
wealth aggregation, snapshot collection. -/
def LModel.step (m : LModel) : LModel :=
  (computeWealthL (computeL (scheduleStepL m))).collect

/-- Translation of `InfectionModel.run_model(n)` observed through the
data collector: construct the model and run `n` daily steps, returning
the collected per-step aggregate snapshots. -/
def run (cfg : Config) (n : ℕ) (rand : LRand) (np : NpRand) : List Snapshot :=
  ((List.range n).foldl (fun m _ => m.step) (initModel cfg rand np)).snapshots

end Legacy

/-- The claim's effective transmission probability, written from the
spec's words: base transmission probability × layer multiplier × sender
transmissibility × receiver susceptibility × (1 − receiver's current
vaccine efficacy against infection), further multiplied by the
reinfection-rate factor exactly when the receiver is RECOVERED. -/
noncomputable def specEffectiveProb (s other : Human) (layer : ContactLayer)
    (env : ModelEnv) : ℝ :=
  (env.ptrans : ℝ) * (LAYER_TRANSMISSION_MULTIPLIER layer : ℝ) *
    (s.transmissibility : ℝ) * (other.susceptibility : ℝ) *
    (1 - other.get_vaccine_protection env .efficacy_infection) *
    (if other.state = .RECOVERED then (env.reinfection_rate : ℝ) else 1)

/-- The claim's daily death probability for a severe case, written from
the spec's words: `ifr / max(1, remaining_severe_duration)` (the
remaining severe duration being `recovery_time - symptoms`), tripled
exactly when the severe-case count has reached hospital capacity, then
scaled by (1 − the agent's own vaccine efficacy against death). -/
noncomputable def specDeathProb (a : Human) (env : ModelEnv) : ℝ :=
  ((a.ifr : ℝ) / (max 1 (((a.recovery_time : ℤ) - a.symptoms : ℤ) : ℝ))) *
    (if env.severe ≥ env.hospital_capacity then 3 else 1) *
    (1 - a.get_vaccine_protection env .efficacy_death)

/-- The field constraints established by `Human.__init__` in `agent.py`:
a freshly created agent is SUSCEPTIBLE and Asymptomatic with zeroed
timers, no memberships, no vaccination, and age-stratified coefficients
computed from its sampled age (which `sample_age` draws inside
`[0, 120)`). -/
def InitHuman (a : Human) : Prop :=
  a.state = .SUSCEPTIBLE ∧ a.severity = .Asymptomatic ∧
  a.is_student = false ∧
  a.infection_time = 0 ∧ a.incubation_period = 0 ∧ a.recovery_time = 0 ∧
  a.induced_infections = 0 ∧ a.infected_others = false ∧
  0 ≤ a.age ∧ a.age < 120 ∧
  a.susceptibility = get_param_for_age a.age SUSCEPTIBILITY_BY_AGE ∧
  a.transmissibility = get_param_for_age a.age TRANSMISSIBILITY_BY_AGE ∧
  a.ifr = get_param_for_age a.age IFR_BY_AGE ∧
  a.hospitalization_rate = get_param_for_age a.age HOSPITALIZATION_RATE_BY_AGE ∧
  a.symptomatic_rate = get_param_for_age a.age SYMPTOMATIC_RATE_BY_AGE ∧
  a.vaccinated = false ∧ a.vaccine_dose = none ∧ a.vaccination_day = 0 ∧
  a.immunity_wane_day = 0 ∧
  a.household_id = -1 ∧ a.household_members = [] ∧
  a.workplace_id = -1 ∧ a.workplace_members = [] ∧
  a.school_id = -1 ∧ a.school_members = []

/-- Reachability of an agent value along a run: a freshly constructed
agent is reachable; the result of the agent's own `status` update under
any model attributes and random draws is reachable; and the receiver
update of an `infect` call from an INFECTED sender is reachable.  (The
transitions other than `status` and `infect` — movement and the wealth
update — never touch the disease state or the severity.) -/
inductive Reachable : Human → Prop where
  | init (a : Human) : InitHuman a → Reachable a
  | statusStep (a : Human) (env : ModelEnv) (g : Rng) :
      Reachable a → Reachable (a.status env g).1
  | infected (s a : Human) (layer : ContactLayer) (env : ModelEnv) (g : Rng) :
      Reachable a → s.state = .INFECTED →
      Reachable (Human.infect s a layer env g).2.1

/-- A freshly initialised agent with a concrete age, used as concrete
input in the witnesses: the concrete outcome of `Human.__init__`
(symptom draw `int(normalvariate(10,4)) = 10`, stratum draw 0). -/
def baseHuman (uid : ℕ) (age : ℚ) : Human :=
  { uid := uid, age := age, is_student := false,
    state := .SUSCEPTIBLE, severity := .Asymptomatic,
    infection_time := 0, incubation_period := 0, recovery_time := 0,
    induced_infections := 0, infected_others := false, symptoms := 10,
    susceptibility := get_param_for_age age SUSCEPTIBILITY_BY_AGE,
    transmissibility := get_param_for_age age TRANSMISSIBILITY_BY_AGE,
    ifr := get_param_for_age age IFR_BY_AGE,
    hospitalization_rate := get_param_for_age age HOSPITALIZATION_RATE_BY_AGE,
    symptomatic_rate := get_param_for_age age SYMPTOMATIC_RATE_BY_AGE,
    vaccinated := false, vaccine_dose := none, vaccination_day := 0,
    immunity_wane_day := 0,
    household_id := -1, household_members := [],
    workplace_id := -1, workplace_members := [],
    school_id := -1, school_members := [],
    social_stratum := 0, wealth := 0, income := basic_income 0,
    expanditure := 0, pos := (0, 0) }

/-- Concrete model attributes used by the concrete traces: day `k`, no
severe cases, capacity 10, base transmission 1/2, no reinfection, full
mobility. -/
def envAt (k : ℕ) : ModelEnv :=
  { steps := k, severe := 0, hospital_capacity := 10, ptrans := 1/2,
    reinfection_rate := 0, mov_prob := 1 }

/-- A concrete INFECTED sender (a fresh agent seeded infected). -/
def infectedSender : Human := {baseHuman 9 30 with state := .INFECTED}

/-- The concrete trace of claim C3: day 0, the fresh agent 0 is exposed
by `infectedSender` (uniform draw 0, incubation draw 1, duration draw 3). -/
def traceExposed : Human :=
  {baseHuman 0 30 with state := .EXPOSED, infection_time := 0,
                       incubation_period := 1, recovery_time := 4}

/-- Day 1 of the C3 trace: incubation elapsed, symptomatic draw passes,
symptom-offset draw 5. -/
def traceInfected : Human := {traceExposed with state := .INFECTED, symptoms := 5}

/-- Day 2 of the C3 trace: the severe-flip roll passes. -/
def traceSevere : Human := {traceInfected with severity := .Severe}

/-- Day 3 of the C3 trace: the death roll passes; the agent dies with
severity still Severe. -/
def traceDead : Human := {traceSevere with state := .DIED}

/-- Concrete severe INFECTED agent for the claim C5 witness. -/
def severeAgent : Human :=
  {baseHuman 1 30 with state := .INFECTED, severity := .Severe,
                       recovery_time := 4, symptoms := 5}

/-- Concrete agent for the claim C7 witness: a household of size one
(the membership list holds only the agent's own uid) and no
workplace/school membership. -/
def hermitAgent : Human := {baseHuman 2 40 with household_members := [2]}

/-- Concrete agent pair for the claim C8 witness. -/
def pairAgents : List Human := [baseHuman 0 30, baseHuman 1 10]

namespace Legacy

/-- Base legacy agent for the claim C2 counterexample. -/
def lbase (uid : ℕ) : LHuman :=
  { uid := uid, age := 30, state := .SUSCEPTIBLE, severity := .Exposed,
    infection_time := 0, recovery_time := 0, induced_infections := 0,
    infected_others := false, social_stratum := 0, wealth := 0,
    income := 1, expanditure := 0, pos := (0, 0), inSchedule := true }

/-- Legacy model state with two spreaders (1 and 3 induced infections),
the claim C2 counterexample input. -/
def twoSpreaders : LModel :=
  { cfg := defaultConfig, time := 0,
    agents := [{lbase 0 with induced_infections := 1, infected_others := true},
               {lbase 1 with induced_infections := 3, infected_others := true}],
    dead_agents := [], susceptible := 0, dead := 0, recovered := 0,
    infected := 0, R0 := 0, severe := 0, total_wealth := 10 ^ 4,
    wealth_most_poor := 0, wealth_poor := 0, wealth_working_class := 0,
    wealth_rich := 0, wealth_most_rich := 0,
    rand := ⟨[], []⟩, np := ([] : List ℚ), snapshots := [] }

/-- Configuration for the claim C1 counterexample: one agent on a 1×1
grid, default disease parameters. -/
def cfgOne : Config :=
  { N := 1, width := 1, height := 1, ptrans := 1/4, reinfection_rate := 0,
    severe_perc := 18/100, death_rate := 193/10000, recovery_days := 21,
    recovery_sd := 7, initial_infected_perc := 1/5 }

/-- The seeded stream used by both C1 runs (all uniform draws 0, all
normal draws 0): the value of the model-owned source for one fixed
seed. -/
def seedStream : LRand := ⟨[0, 0, 0, 0, 0, 0], [0, 0]⟩

/-- Global numpy stream of the first C1 run: initial-infection draw 9/10
(agent seeded infected), severity draw 9/10 (Severe), death-roll draw 0
(the agent dies on day 1). -/
def npStreamA : NpRand := ([9/10, 9/10, 0] : List ℚ)

/-- Global numpy stream of the second C1 run: identical construction
draws, death-roll draw 1/2 (the agent survives day 1). -/
def npStreamB : NpRand := ([9/10, 9/10, 1/2] : List ℚ)

/-- The single agent of the C1 runs as constructed (seeded infected and
severe by the numpy draws, wealth 400 from the quintile distribution). -/
def agentInit : LHuman :=
  { uid := 0, age := 20, state := .INFECTED, severity := .Severe,
    infection_time := 0, recovery_time := 21, induced_infections := 0,
    infected_others := false, social_stratum := 0, wealth := 400,
    income := 1, expanditure := 0, pos := (0, 0), inSchedule := true }

/-- The construction-time snapshot of the C1 runs (aggregate counters
still at their initial literal values). -/
def snapInit : Snapshot := ⟨0, 0, 1, 0, 0, 0, 400, 800, 1300, 2000, 5500⟩

/-- The C1 model state right after construction, with the remaining
global numpy stream. -/
def modelInit (np : NpRand) : LModel :=
  { cfg := cfgOne, time := 0, agents := [agentInit], dead_agents := [],
    susceptible := 1, dead := 0, recovered := 0, infected := 0, R0 := 0,
    severe := 0, total_wealth := 10 ^ 4, wealth_most_poor := 400,
    wealth_poor := 800, wealth_working_class := 1300, wealth_rich := 2000,
    wealth_most_rich := 5500, rand := ⟨[0, 0, 0], []⟩, np := np,
    snapshots := [snapInit] }

/-- C1 run A: the agent after the fatal day-1 status update. -/
def agentDead : LHuman := {agentInit with state := .DIED, inSchedule := false}

/-- C1 run A: model after the scheduler consumed the shuffle draw. -/
def mA_sched : LModel := {(modelInit ([0] : List ℚ)) with rand := ⟨[0, 0], []⟩}

/-- C1 run A: model after the day-1 `status` (agent dead, removed from
the scheduler, appended to `dead_agents`, numpy stream consumed). -/
def mA_status : LModel :=
  {mA_sched with agents := [agentDead], dead_agents := [0], np := ([] : List ℚ)}

/-- C1 run A: model after the day-1 `move` (position unchanged on the
1×1 grid, one seeded draw consumed). -/
def mA_move : LModel := {mA_status with rand := ⟨[0], []⟩}

/-- C1 run A: model after the day-1 wealth update (dead agent earns
nothing, zero expense draw). -/
def mA_wealth : LModel :=
  {mA_move with agents := [{agentDead with income := 0}], rand := ⟨[], []⟩}

/-- C1 run A: model after the full scheduler step. -/
def mA_step : LModel := {mA_wealth with time := 1}

/-- C1 run A: model after `compute` (everything zero, one dead). -/
def mA_comp : LModel := {mA_step with susceptible := 0, dead := 1}

/-- C1 run A: model after `compute_wealth` (the dead agent is out of the
scheduler, so every stratum total collapses to 0). -/
def mA_compw : LModel :=
  {mA_comp with wealth_most_poor := 0, wealth_poor := 0,
                wealth_working_class := 0, wealth_rich := 0, wealth_most_rich := 0}

/-- C1 run A: the day-1 snapshot (dead = 1). -/
def snapA : Snapshot := ⟨0, 0, 0, 1, 0, 0, 0, 0, 0, 0, 0⟩

/-- C1 run B: model after the scheduler consumed the shuffle draw. -/
def mB_sched : LModel :=
  {(modelInit ([1/2] : List ℚ)) with rand := ⟨[0, 0], []⟩}

/-- C1 run B: model after the day-1 `status` (survives the death roll;
only the numpy stream is consumed). -/
def mB_status : LModel := {mB_sched with np := ([] : List ℚ)}

/-- C1 run B: model after the day-1 `move`. -/
def mB_move : LModel := {mB_status with rand := ⟨[0], []⟩}

/-- C1 run B: model after the day-1 wealth update (a Severe agent earns
nothing). -/
def mB_wealth : LModel :=
  {mB_move with agents := [{agentInit with income := 0}], rand := ⟨[], []⟩}

/-- C1 run B: model after the full scheduler step. -/
def mB_step : LModel := {mB_wealth with time := 1}

/-- C1 run B: model after `compute` (one infected severe case, no
dead). -/
def mB_comp : LModel := {mB_step with susceptible := 0, infected := 1, severe := 1}

/-- C1 run B: model after `compute_wealth` (all wealth sits in the
lowest stratum). -/
def mB_compw : LModel :=
  {mB_comp with wealth_most_poor := 400, wealth_poor := 0,
                wealth_working_class := 0, wealth_rich := 0, wealth_most_rich := 0}

/-- C1 run B: the day-1 snapshot (infected = 1, severe = 1, dead = 0). -/
def snapB : Snapshot := ⟨1, 0, 0, 0, 0, 1, 400, 0, 0, 0, 0⟩

end Legacy

/-! Theorems. -/

/-- Claim C7: for every agent and every static layer, an agent with no
membership in that layer — including a household of size 1 whose only
member is the agent itself — gets an empty contact collection from
`get_contacts` and never an error (the embedded function is total), and
household lookups return all co-members excluding the agent itself. -/
theorem get_contacts_empty_membership (a : Human) (g : Rng) (mc : Option ℕ)
    (hhh : a.household_members = [] ∨ a.household_members = [a.uid])
    (hwp : a.workplace_members = [])
    (hsc : a.school_members = []) :
    get_contacts a .HOUSEHOLD g mc = (some [], g) ∧
    get_contacts a .WORKPLACE g mc = (some [], g) ∧
    get_contacts a .SCHOOL g mc = (some [], g) ∧
    (∀ b : Human, ∀ g' : Rng, get_contacts b .HOUSEHOLD g' mc =
      (some (b.household_members.filter (fun u => u ≠ b.uid)), g')) := by
  refine ⟨?_, ?_, ?_, fun b g' => rfl⟩
  · rcases hhh with h | h <;> simp [get_contacts, h]
  · simp [get_contacts, hwp]
  · simp [get_contacts, hsc]

/-- Witness for claim C7 at the concrete `hermitAgent` (single-member
household, no workplace, no school). -/
theorem get_contacts_empty_membership_witness :
    (hermitAgent.household_members = [hermitAgent.uid] ∧
     hermitAgent.workplace_members = [] ∧
     hermitAgent.school_members = []) ∧
    get_contacts hermitAgent .HOUSEHOLD ⟨[], []⟩ none = (some [], ⟨[], []⟩) ∧
    get_contacts hermitAgent .WORKPLACE ⟨[], []⟩ none = (some [], ⟨[], []⟩) := by
  have h := get_contacts_empty_membership hermitAgent ⟨[], []⟩ none
    (Or.inr rfl) rfl rfl
  exact ⟨⟨rfl, rfl, rfl⟩, h.1, h.2.1⟩

/-- Claim C9: for every dose level and efficacy dimension,
`get_vaccine_efficacy` is strictly increasing in days-since-vaccination
up to the end of the onset-ramp window, strictly decreasing
(geometrically) after the window, and always bounded within
`[0, base_efficacy]`. -/
theorem get_vaccine_efficacy_monotone (dose : DoseLevel) (key : EffKey)
    (d d1 d2 : ℕ) :
    (d1 < d2 → d2 ≤ (VACCINE_PARAMS dose).days_to_effect →
      get_vaccine_efficacy dose d1 key < get_vaccine_efficacy dose d2 key) ∧
    ((VACCINE_PARAMS dose).days_to_effect ≤ d1 → d1 < d2 →
      get_vaccine_efficacy dose d2 key < get_vaccine_efficacy dose d1 key) ∧
    (0 ≤ get_vaccine_efficacy dose d key ∧
      get_vaccine_efficacy dose d key ≤ ((VACCINE_PARAMS dose).get key : ℝ)) := by
  have hE : (0 : ℝ) < ((VACCINE_PARAMS dose).get key : ℝ) := by
    cases dose <;> cases key <;> norm_num [VACCINE_PARAMS, VaccineDoseParams.get]
  have hD : (0 : ℝ) < ((VACCINE_PARAMS dose).days_to_effect : ℝ) := by
    cases dose <;> norm_num [VACCINE_PARAMS]
  have hhalf0 : (0 : ℝ) < 1 / 2 := by norm_num
  have hhalf1 : (1 / 2 : ℝ) < 1 := by norm_num
  refine ⟨?_, ?_, ?_⟩
  · intro h12 h2le
    rcases Nat.lt_or_ge d2 (VACCINE_PARAMS dose).days_to_effect with h2 | h2
    · have h1 : d1 < (VACCINE_PARAMS dose).days_to_effect := lt_trans h12 h2
      simp only [get_vaccine_efficacy, if_pos h1, if_pos h2]
      have hdd : ((d1 : ℝ) / ((VACCINE_PARAMS dose).days_to_effect : ℝ)) <
          ((d2 : ℝ) / ((VACCINE_PARAMS dose).days_to_effect : ℝ)) :=
        div_lt_div_of_pos_right (by exact_mod_cast h12) hD
      exact mul_lt_mul_of_pos_left hdd hE
    · have h2eq : d2 = (VACCINE_PARAMS dose).days_to_effect := le_antisymm h2le h2
      have h1 : d1 < (VACCINE_PARAMS dose).days_to_effect := h2eq ▸ h12
      have hn2 : ¬ d2 < (VACCINE_PARAMS dose).days_to_effect := not_lt.2 h2
      simp only [get_vaccine_efficacy, if_pos h1, if_neg hn2]
      have hzero : ((d2 : ℝ) - ((VACCINE_PARAMS dose).days_to_effect : ℝ)) /
          ((waning_halflife_days : ℕ) : ℝ) = 0 := by
        rw [h2eq]; ring
      rw [hzero, Real.rpow_zero, mul_one]
      have hlt1 : ((d1 : ℝ) / ((VACCINE_PARAMS dose).days_to_effect : ℝ)) < 1 :=
        (div_lt_one hD).2 (by exact_mod_cast h1)
      calc ((VACCINE_PARAMS dose).get key : ℝ) *
            ((d1 : ℝ) / ((VACCINE_PARAMS dose).days_to_effect : ℝ))
          < ((VACCINE_PARAMS dose).get key : ℝ) * 1 := mul_lt_mul_of_pos_left hlt1 hE
        _ = ((VACCINE_PARAMS dose).get key : ℝ) := mul_one _
  · intro h1le h12
    have hn1 : ¬ d1 < (VACCINE_PARAMS dose).days_to_effect := not_lt.2 h1le
    have hn2 : ¬ d2 < (VACCINE_PARAMS dose).days_to_effect :=
      not_lt.2 (le_trans h1le (le_of_lt h12))
    simp only [get_vaccine_efficacy, if_neg hn1, if_neg hn2]
    have hexp : ((d1 : ℝ) - ((VACCINE_PARAMS dose).days_to_effect : ℝ)) /
        ((waning_halflife_days : ℕ) : ℝ) <
        ((d2 : ℝ) - ((VACCINE_PARAMS dose).days_to_effect : ℝ)) /
        ((waning_halflife_days : ℕ) : ℝ) := by
      apply div_lt_div_of_pos_right _ (by norm_num [waning_halflife_days])
      have : (d1 : ℝ) < (d2 : ℝ) := by exact_mod_cast h12
      linarith
    exact mul_lt_mul_of_pos_left
      (Real.rpow_lt_rpow_of_exponent_gt hhalf0 hhalf1 hexp) hE
  · rcases Nat.lt_or_ge d (VACCINE_PARAMS dose).days_to_effect with hd | hd
    · simp only [get_vaccine_efficacy, if_pos hd]
      constructor
      · exact mul_nonneg hE.le (div_nonneg (Nat.cast_nonneg _) hD.le)
      · have hle1 : ((d : ℝ) / ((VACCINE_PARAMS dose).days_to_effect : ℝ)) ≤ 1 :=
          (div_le_one hD).2 (by exact_mod_cast hd.le)
        calc ((VACCINE_PARAMS dose).get key : ℝ) *
              ((d : ℝ) / ((VACCINE_PARAMS dose).days_to_effect : ℝ))
            ≤ ((VACCINE_PARAMS dose).get key : ℝ) * 1 :=
              mul_le_mul_of_nonneg_left hle1 hE.le
          _ = ((VACCINE_PARAMS dose).get key : ℝ) := mul_one _
    · simp only [get_vaccine_efficacy, if_neg (not_lt.2 hd)]
      have hwane : (0 : ℝ) ≤
          ((d : ℝ) - ((VACCINE_PARAMS dose).days_to_effect : ℝ)) /
          ((waning_halflife_days : ℕ) : ℝ) := by
        apply div_nonneg _ (by norm_num [waning_halflife_days])
        have : ((VACCINE_PARAMS dose).days_to_effect : ℝ) ≤ (d : ℝ) := by
          exact_mod_cast hd
        linarith
      constructor
      · exact mul_nonneg hE.le (Real.rpow_nonneg hhalf0.le _)
      · calc ((VACCINE_PARAMS dose).get key : ℝ) *
              ((1 / 2 : ℝ) ^ (((d : ℝ) -
                ((VACCINE_PARAMS dose).days_to_effect : ℝ)) /
                ((waning_halflife_days : ℕ) : ℝ)))
            ≤ ((VACCINE_PARAMS dose).get key : ℝ) * 1 :=
              mul_le_mul_of_nonneg_left
                (Real.rpow_le_one hhalf0.le hhalf1.le hwane) hE.le
          _ = ((VACCINE_PARAMS dose).get key : ℝ) := mul_one _

/-- Witness for claim C9 at dose 1, the infection dimension: strict ramp
increase from day 3 to day 5, strict decay from day 14 to day 20, and the
bounds at day 9. -/
theorem get_vaccine_efficacy_monotone_witness :
    ((3 : ℕ) < 5 ∧ 5 ≤ (VACCINE_PARAMS .dose_1).days_to_effect ∧
      get_vaccine_efficacy .dose_1 3 .efficacy_infection <
        get_vaccine_efficacy .dose_1 5 .efficacy_infection) ∧
    ((VACCINE_PARAMS .dose_1).days_to_effect ≤ 14 ∧ (14 : ℕ) < 20 ∧
      get_vaccine_efficacy .dose_1 20 .efficacy_infection <
        get_vaccine_efficacy .dose_1 14 .efficacy_infection) ∧
    (0 ≤ get_vaccine_efficacy .dose_1 9 .efficacy_infection ∧
      get_vaccine_efficacy .dose_1 9 .efficacy_infection ≤
        ((VACCINE_PARAMS .dose_1).get .efficacy_infection : ℝ)) :=
  ⟨⟨by decide, by decide,
    (get_vaccine_efficacy_monotone .dose_1 .efficacy_infection 9 3 5).1
      (by decide) (by decide)⟩,
   ⟨by decide, by decide,
    (get_vaccine_efficacy_monotone .dose_1 .efficacy_infection 9 14 20).2.1
      (by decide) (by decide)⟩,
   (get_vaccine_efficacy_monotone .dose_1 .efficacy_infection 9 3 5).2.2⟩

/-- Helper: closed form of `Rng.nextFloat`. -/
theorem Rng.nextFloat_eq (g : Rng) :
    g.nextFloat = (g.floats.headD 0, ⟨g.floats.tail, g.ints⟩) := by
  obtain ⟨fs, zs⟩ := g
  cases fs <;> rfl

/-- Helper: closed form of `Rng.nextInt`. -/
theorem Rng.nextInt_eq (g : Rng) :
    g.nextInt = (g.ints.headD 0, ⟨g.floats, g.ints.tail⟩) := by
  obtain ⟨fs, zs⟩ := g
  cases zs <;> rfl

/-- Claim C10: an `infect` call may change the sender only in
`induced_infections` / `infected_others` and the receiver only in
`state` / `infection_time` / `incubation_period` / `recovery_time`; every
other field of both agents is unchanged.  (The embedding's signature
already shows the call touches no third agent and no coordinator
aggregate: it consumes only the two agents, read-only model attributes
and the random source.) -/
theorem infect_frame (s o : Human) (layer : ContactLayer) (env : ModelEnv)
    (g : Rng) :
    (∃ n b, (Human.infect s o layer env g).1 =
      {s with induced_infections := n, infected_others := b}) ∧
    (∃ st it ip rt, (Human.infect s o layer env g).2.1 =
      {o with state := st, infection_time := it,
              incubation_period := ip, recovery_time := rt}) ∧
    (((Human.infect s o layer env g).1.induced_infections = s.induced_infections ∧
      (Human.infect s o layer env g).1.infected_others = s.infected_others) ∨
     ((Human.infect s o layer env g).1.induced_infections = s.induced_infections + 1 ∧
      (Human.infect s o layer env g).1.infected_others = true)) := by
  simp only [Human.infect, Rng.nextFloat_eq, Rng.nextInt_eq,
    sample_incubation_period, sample_infectious_duration]
  split_ifs <;> refine ⟨⟨_, _, rfl⟩, ⟨_, _, _, _, rfl⟩, ?_⟩ <;>
    first
      | exact Or.inl ⟨rfl, rfl⟩
      | exact Or.inr ⟨rfl, rfl⟩

/-- Claim C4: with an INFECTED sender, the effective transmission
probability of `infect` equals base × layer multiplier × sender
transmissibility × receiver susceptibility × (1 − receiver vaccine
efficacy against infection), further multiplied by the reinfection rate
exactly when the receiver is RECOVERED (`specEffectiveProb`); a
successful roll against a SUSCEPTIBLE or RECOVERED receiver sets the
receiver EXPOSED with `infection_time` = current day and
`recovery_time` = sampled incubation + sampled infectious duration
(hence `recovery_time ≥ incubation_period`) and increments the sender's
induced-infection counter; a roll against an already-EXPOSED receiver
changes neither agent. -/
theorem infect_spec (s o : Human) (layer : ContactLayer) (env : ModelEnv)
    (f : ℚ) (fs : List ℚ) (zs : List ℤ) (hs : s.state = .INFECTED) :
    (o.state = .EXPOSED →
      Human.infect s o layer env ⟨f :: fs, zs⟩ = (s, o, ⟨fs, zs⟩)) ∧
    ((o.state = .SUSCEPTIBLE ∨ o.state = .RECOVERED) →
      (¬ ((f : ℝ) < specEffectiveProb s o layer env) →
        Human.infect s o layer env ⟨f :: fs, zs⟩ = (s, o, ⟨fs, zs⟩)) ∧
      (((f : ℝ) < specEffectiveProb s o layer env) →
        ∀ z1 z2 zr, zs = z1 :: z2 :: zr →
        Human.infect s o layer env ⟨f :: fs, zs⟩ =
          ({s with induced_infections := s.induced_infections + 1,
                   infected_others := true},
           {o with state := .EXPOSED, infection_time := env.steps,
                   incubation_period := (max 1 z1).toNat,
                   recovery_time := (max 1 z1).toNat + (max 3 z2).toNat},
           ⟨fs, zr⟩) ∧
        (max 1 z1).toNat ≤ (max 1 z1).toNat + (max 3 z2).toNat)) := by
  constructor
  · intro hE
    simp only [Human.infect, Rng.nextFloat_eq, Rng.nextInt_eq, hs, hE,
      sample_incubation_period, sample_infectious_duration]
    simp
  · intro hSR
    rcases hSR with hS | hR
    · have hP : (env.ptrans : ℝ) * (LAYER_TRANSMISSION_MULTIPLIER layer : ℝ) *
          (s.transmissibility : ℝ) * (o.susceptibility : ℝ) *
          (1 - o.get_vaccine_protection env .efficacy_infection) =
          specEffectiveProb s o layer env := by
        simp [specEffectiveProb, hS]
      constructor
      · intro hroll
        have hcond : ¬ ((f : ℝ) < (env.ptrans : ℝ) *
            (LAYER_TRANSMISSION_MULTIPLIER layer : ℝ) *
            (s.transmissibility : ℝ) * (o.susceptibility : ℝ) *
            (1 - o.get_vaccine_protection env .efficacy_infection)) := by
          rw [hP]; exact hroll
        simp only [Human.infect, Rng.nextFloat_eq, Rng.nextInt_eq, hs, hS,
          sample_incubation_period, sample_infectious_duration,
          List.headD_cons, List.tail_cons]
        simp [hcond]
      · intro hroll z1 z2 zr hzs
        subst hzs
        have hcond : (f : ℝ) < (env.ptrans : ℝ) *
            (LAYER_TRANSMISSION_MULTIPLIER layer : ℝ) *
            (s.transmissibility : ℝ) * (o.susceptibility : ℝ) *
            (1 - o.get_vaccine_protection env .efficacy_infection) := by
          rw [hP]; exact hroll
        refine ⟨?_, Nat.le_add_right _ _⟩
        simp only [Human.infect, Rng.nextFloat_eq, Rng.nextInt_eq, hs, hS,
          sample_incubation_period, sample_infectious_duration,
          List.headD_cons, List.tail_cons]
        simp [hcond]
    · have hP : (env.ptrans : ℝ) * (LAYER_TRANSMISSION_MULTIPLIER layer : ℝ) *
          (s.transmissibility : ℝ) * (o.susceptibility : ℝ) *
          (1 - o.get_vaccine_protection env .efficacy_infection) *
          (env.reinfection_rate : ℝ) =
          specEffectiveProb s o layer env := by
        simp [specEffectiveProb, hR]
      constructor
      · intro hroll
        have hcond : ¬ ((f : ℝ) < (env.ptrans : ℝ) *
            (LAYER_TRANSMISSION_MULTIPLIER layer : ℝ) *
            (s.transmissibility : ℝ) * (o.susceptibility : ℝ) *
            (1 - o.get_vaccine_protection env .efficacy_infection) *
            (env.reinfection_rate : ℝ)) := by
          rw [hP]; exact hroll
        simp only [Human.infect, Rng.nextFloat_eq, Rng.nextInt_eq, hs, hR,
          sample_incubation_period, sample_infectious_duration,
          List.headD_cons, List.tail_cons]
        simp [hcond]
      · intro hroll z1 z2 zr hzs
        subst hzs
        have hcond : (f : ℝ) < (env.ptrans : ℝ) *
            (LAYER_TRANSMISSION_MULTIPLIER layer : ℝ) *
            (s.transmissibility : ℝ) * (o.susceptibility : ℝ) *
            (1 - o.get_vaccine_protection env .efficacy_infection) *
            (env.reinfection_rate : ℝ) := by
          rw [hP]; exact hroll
        refine ⟨?_, Nat.le_add_right _ _⟩
        simp only [Human.infect, Rng.nextFloat_eq, Rng.nextInt_eq, hs, hR,
          sample_incubation_period, sample_infectious_duration,
          List.headD_cons, List.tail_cons]
        simp [hcond]

/-- Witness for claim C4: the concrete INFECTED sender exposes a fresh
susceptible agent at day 0 (roll 0 against effective probability 3/2 on
the household layer), producing exactly the `traceExposed` record. -/
theorem infect_spec_witness :
    infectedSender.state = .INFECTED ∧
    (0 : ℝ) < specEffectiveProb infectedSender (baseHuman 0 30) .HOUSEHOLD (envAt 0) ∧
    Human.infect infectedSender (baseHuman 0 30) .HOUSEHOLD (envAt 0)
        ⟨[0], [1, 3]⟩ =
      ({infectedSender with induced_infections := 1, infected_others := true},
       traceExposed, ⟨[], []⟩) := by
  have hp : (0 : ℝ) < specEffectiveProb infectedSender (baseHuman 0 30)
      .HOUSEHOLD (envAt 0) := by
    norm_num [specEffectiveProb, Human.get_vaccine_protection, baseHuman,
      infectedSender, envAt, get_param_for_age, get_age_group, AGE_GROUPS,
      TRANSMISSIBILITY_BY_AGE, SUSCEPTIBILITY_BY_AGE,
      LAYER_TRANSMISSION_MULTIPLIER]
    rw [if_neg (by decide : ¬ (InfectionState.SUSCEPTIBLE = InfectionState.RECOVERED))]
    norm_num
  have h := ((infect_spec infectedSender (baseHuman 0 30) .HOUSEHOLD (envAt 0)
      0 [] [1, 3] rfl).2 (Or.inl rfl)).2 (by simpa using hp) 1 3 [] rfl
  exact ⟨rfl, hp, h.1⟩

/-- Helper: the capped death-probability expression computed inside the
INFECTED/Severe branch of `Human.status` equals the spec's uncapped
formula whenever `0 ≤ ifr ≤ 33/100` (the caps never bind because the
age-stratified IFR table never exceeds 0.10). -/
theorem deathProb_cap_eq (ifr rem V : ℝ) (c : Prop) [Decidable c]
    (h0 : 0 ≤ ifr) (h1 : ifr ≤ 33/100) :
    (if c then min (99/100 : ℝ) ((min (99/100 : ℝ) (ifr / max 1 (max 1 rem))) * 3)
      else min (99/100 : ℝ) (ifr / max 1 (max 1 rem))) * (1 - V) =
    (ifr / max 1 rem) * (if c then (3 : ℝ) else 1) * (1 - V) := by
  have hmm : max (1 : ℝ) (max 1 rem) = max 1 rem := by
    rw [← max_assoc, max_self]
  have hq : ifr / max 1 rem ≤ ifr := by
    apply div_le_self h0 (le_max_left 1 rem)
  have hq99 : ifr / max 1 rem ≤ 99/100 := by linarith
  have hmin : min (99/100 : ℝ) (ifr / max 1 (max 1 rem)) = ifr / max 1 rem := by
    rw [hmm]; exact min_eq_right hq99
  by_cases hc : c
  · simp only [if_pos hc, hmin]
    have h3 : (ifr / max 1 rem) * 3 ≤ 99/100 := by linarith
    rw [min_eq_right h3]
  · simp only [if_neg hc, hmin, mul_one]

/-- Helper: the tail of the INFECTED branch of `Human.status` (after the
death roll) leaves the state alone or sets it to RECOVERED; it never sets
DIED. -/
theorem statusInfectedRest_state (a : Human) (env : ModelEnv) (g : Rng) :
    (a.statusInfectedRest env g).1.state = a.state ∨
    (a.statusInfectedRest env g).1.state = .RECOVERED := by
  simp only [Human.statusInfectedRest, Rng.nextFloat_eq, Rng.nextInt_eq]
  split_ifs <;> first | exact Or.inl rfl | exact Or.inr rfl

/-- Claim C5: for an INFECTED agent with severity SEVERE (with an IFR in
the range of the age-stratified table), the daily death roll of
`Human.status` succeeds exactly when the uniform draw is below
`specDeathProb` — `ifr / max(1, recovery_time − symptoms)`, tripled
exactly when the severe count has reached hospital capacity, then scaled
by (1 − vaccine efficacy against death) — and a positive roll changes
the state to DIED and nothing else, ending the agent's step. -/
theorem status_severe_death (a : Human) (env : ModelEnv) (f : ℚ)
    (fs : List ℚ) (zs : List ℤ)
    (hstate : a.state = .INFECTED) (hsev : a.severity = .Severe)
    (hifr0 : 0 ≤ a.ifr) (hifr : a.ifr ≤ 33/100) :
    (((f : ℝ) < specDeathProb a env) →
      Human.status a env ⟨f :: fs, zs⟩ = ({a with state := .DIED}, ⟨fs, zs⟩)) ∧
    (¬ ((f : ℝ) < specDeathProb a env) →
      (Human.status a env ⟨f :: fs, zs⟩).1.state ≠ .DIED) := by
  have hifr0' : (0 : ℝ) ≤ (a.ifr : ℝ) := by exact_mod_cast hifr0
  have hifr' : (a.ifr : ℝ) ≤ 33/100 := by
    have h33 : ((33/100 : ℚ) : ℝ) = 33/100 := by norm_num
    rw [← h33]
    exact_mod_cast hifr
  have hcap := deathProb_cap_eq (a.ifr : ℝ)
    (((a.recovery_time : ℤ) - a.symptoms : ℤ) : ℝ)
    (a.get_vaccine_protection env .efficacy_death)
    (env.severe ≥ env.hospital_capacity) hifr0' hifr'
  have hPspec : (if env.severe ≥ env.hospital_capacity then
      min (99/100 : ℝ) ((min (99/100 : ℝ)
        ((a.ifr : ℝ) / max 1 ((max 1 ((a.recovery_time : ℤ) - a.symptoms) : ℤ) : ℝ))) * 3)
      else min (99/100 : ℝ)
        ((a.ifr : ℝ) / max 1 ((max 1 ((a.recovery_time : ℤ) - a.symptoms) : ℤ) : ℝ))) *
      (1 - a.get_vaccine_protection env .efficacy_death) =
      specDeathProb a env := by
    have hc : ((max 1 ((a.recovery_time : ℤ) - a.symptoms) : ℤ) : ℝ) =
        max 1 (((a.recovery_time : ℤ) - a.symptoms : ℤ) : ℝ) := by
      push_cast; rfl
    rw [hc, hcap, specDeathProb]
  constructor
  · intro hroll
    have hcond : (f : ℝ) < (if env.severe ≥ env.hospital_capacity then
        min (99/100 : ℝ) ((min (99/100 : ℝ)
          ((a.ifr : ℝ) / max 1 ((max 1 ((a.recovery_time : ℤ) - a.symptoms) : ℤ) : ℝ))) * 3)
        else min (99/100 : ℝ)
          ((a.ifr : ℝ) / max 1 ((max 1 ((a.recovery_time : ℤ) - a.symptoms) : ℤ) : ℝ))) *
        (1 - a.get_vaccine_protection env .efficacy_death) := by
      rw [hPspec]; exact hroll
    simp only [Human.status, hstate, hsev, Rng.nextFloat_eq,
      List.headD_cons, List.tail_cons, if_true]
    rw [if_pos hcond]
  · intro hroll
    have hcond : ¬ ((f : ℝ) < (if env.severe ≥ env.hospital_capacity then
        min (99/100 : ℝ) ((min (99/100 : ℝ)
          ((a.ifr : ℝ) / max 1 ((max 1 ((a.recovery_time : ℤ) - a.symptoms) : ℤ) : ℝ))) * 3)
        else min (99/100 : ℝ)
          ((a.ifr : ℝ) / max 1 ((max 1 ((a.recovery_time : ℤ) - a.symptoms) : ℤ) : ℝ))) *
        (1 - a.get_vaccine_protection env .efficacy_death)) := by
      rw [hPspec]; exact hroll
    simp only [Human.status, hstate, hsev, Rng.nextFloat_eq,
      List.headD_cons, List.tail_cons, if_true]
    rw [if_neg hcond]
    rcases statusInfectedRest_state a env ⟨fs, zs⟩ with h | h <;> rw [h]
    · rw [hstate]; decide
    · decide

/-- Witness for claim C5 at the concrete `severeAgent` on day 3 (no
hospital overflow, no vaccination): the death roll 0 is below the spec
probability `ifr/1 = 1/2000` and the agent dies with nothing else
changed. -/
theorem status_severe_death_witness :
    severeAgent.state = .INFECTED ∧ severeAgent.severity = .Severe ∧
    0 ≤ severeAgent.ifr ∧ severeAgent.ifr ≤ 33/100 ∧
    ((0 : ℚ) : ℝ) < specDeathProb severeAgent (envAt 3) ∧
    Human.status severeAgent (envAt 3) ⟨[0], []⟩ =
      ({severeAgent with state := .DIED}, ⟨[], []⟩) := by
  have hval : severeAgent.ifr = 5/10000 := rfl
  have hifr0 : (0 : ℚ) ≤ severeAgent.ifr := by rw [hval]; norm_num
  have hifr : severeAgent.ifr ≤ 33/100 := by rw [hval]; norm_num
  have hp : ((0 : ℚ) : ℝ) < specDeathProb severeAgent (envAt 3) := by
    rw [specDeathProb]
    rw [show severeAgent.get_vaccine_protection (envAt 3) .efficacy_death = 0
      from rfl]
    rw [if_neg (by decide : ¬((envAt 3).severe ≥ (envAt 3).hospital_capacity))]
    rw [show ((severeAgent.recovery_time : ℤ) - severeAgent.symptoms : ℤ) = -1
      by decide]
    rw [hval]
    rw [show (((-1 : ℤ)) : ℝ) = -1 by norm_num]
    rw [show max (1 : ℝ) (-1) = 1 from max_eq_left (by norm_num)]
    norm_num
  have h := (status_severe_death severeAgent (envAt 3) 0 [] [] rfl rfl
    hifr0 hifr).1 hp
  exact ⟨rfl, rfl, hifr0, hifr, hp, h⟩

/-- Helper for claim C6: the per-layer transmission loop of `interact`
leaves every DIED contact unchanged in place (the loop skips receivers
whose state is DIED before calling `infect`). -/
theorem infectAll_died_unchanged (l : List Human) (s : Human)
    (layer : ContactLayer) (env : ModelEnv) (g : Rng) (i : ℕ)
    (hi : i < l.length) (hd : (l.get ⟨i, hi⟩).state = .DIED) :
    ((Human.infectAll s l layer env g).2.1).get? i = some (l.get ⟨i, hi⟩) := by
  induction l generalizing s g i with
  | nil => exact absurd hi (by simp)
  | cons o rest ih =>
    cases i with
    | zero =>
      simp only [List.get] at hd
      simp only [Human.infectAll, hd]
      simp
    | succ j =>
      simp only [List.get] at hd ⊢
      have hj : j < rest.length := Nat.lt_of_succ_lt_succ hi
      simp only [Human.infectAll]
      rcases hskip : (if o.state ≠ .DIED then Human.infect s o layer env g
        else (s, o, g)) with ⟨s1, o1, g1⟩
      simp only [hskip]
      rcases hrec : Human.infectAll s1 rest layer env g1 with ⟨s2, rest1, g2⟩
      simp only [hrec, List.get?_cons_succ]
      have := ih s1 g1 j hj (by exact hd)
      rw [hrec] at this
      exact this

/-- Claim C6: DIED is absorbing — a DIED agent's own `step` is an
immediate no-op (nothing about the agent changes, no randomness is
consumed, no contact is touched); an `infect` call against a DIED
receiver changes neither agent nor the random source; and the interact
loops never target a DIED contact, leaving every DIED member of every
resolved contact list unchanged in place. -/
theorem died_absorbing (a s o : Human) (ps : List (ℕ × ℕ))
    (hh wp sc comm : List Human) (layer : ContactLayer) (env : ModelEnv)
    (g : Rng) (hA : a.state = .DIED) (hO : o.state = .DIED) :
    Human.step a ps hh wp sc comm env g = (a, (hh, wp, sc, comm), g) ∧
    Human.infect s o layer env g = (s, o, g) ∧
    (∀ (l : List Human) (s' : Human) (g' : Rng) (i : ℕ) (hi : i < l.length),
      (l.get ⟨i, hi⟩).state = .DIED →
      ((Human.infectAll s' l layer env g').2.1).get? i = some (l.get ⟨i, hi⟩)) := by
  refine ⟨?_, ?_, fun l s' g' i hi hd => infectAll_died_unchanged l s' layer env g' i hi hd⟩
  · simp [Human.step, hA]
  · by_cases hs : s.state = .INFECTED
    · simp [Human.infect, hs, hO]
    · simp [Human.infect, hs]

/-- Witness for claim C6 at a concrete dead agent. -/
theorem died_absorbing_witness :
    traceDead.state = .DIED ∧
    Human.step traceDead [] [] [] [] [] (envAt 4) ⟨[], []⟩ =
      (traceDead, ([], [], [], []), ⟨[], []⟩) ∧
    Human.infect infectedSender traceDead .HOUSEHOLD (envAt 4) ⟨[], []⟩ =
      (infectedSender, traceDead, ⟨[], []⟩) := by
  have h := died_absorbing traceDead infectedSender traceDead []
    [] [] [] [] .HOUSEHOLD (envAt 4) ⟨[], []⟩ rfl rfl
  exact ⟨rfl, h.1, h.2.1⟩

/-- Helper: day 0 of the C3 trace — the fresh agent is exposed by the
concrete infected sender. -/
theorem trace_step1 :
    (Human.infect infectedSender (baseHuman 0 30) .HOUSEHOLD (envAt 0)
      ⟨[0], [1, 3]⟩).2.1 = traceExposed := by
  norm_num [Human.infect, Rng.nextFloat_eq, Rng.nextInt_eq,
    sample_incubation_period, sample_infectious_duration,
    infectedSender, baseHuman, traceExposed, envAt,
    Human.get_vaccine_protection, LAYER_TRANSMISSION_MULTIPLIER,
    get_param_for_age, get_age_group, AGE_GROUPS,
    SUSCEPTIBILITY_BY_AGE, TRANSMISSIBILITY_BY_AGE, IFR_BY_AGE,
    HOSPITALIZATION_RATE_BY_AGE, SYMPTOMATIC_RATE_BY_AGE,
    show Int.toNat 3 = 3 from rfl, show Int.toNat 1 = 1 from rfl]

/-- Helper: day 1 of the C3 trace — incubation has elapsed, the agent
turns INFECTED with symptom offset 5. -/
theorem trace_step2 :
    (Human.status traceExposed (envAt 1) ⟨[0], [5]⟩).1 = traceInfected := by
  norm_num [Human.status, Human.statusExposed, Rng.nextFloat_eq,
    Rng.nextInt_eq, traceExposed, traceInfected, baseHuman, envAt,
    get_param_for_age, get_age_group, AGE_GROUPS,
    SUSCEPTIBILITY_BY_AGE, TRANSMISSIBILITY_BY_AGE, IFR_BY_AGE,
    HOSPITALIZATION_RATE_BY_AGE, SYMPTOMATIC_RATE_BY_AGE,
    show max (1 : ℤ) 5 = 5 by decide]

/-- Helper: day 2 of the C3 trace — the severe-flip roll passes. -/
theorem trace_step3 :
    (Human.status traceInfected (envAt 2) ⟨[0], []⟩).1 = traceSevere := by
  norm_num [Human.status, Human.statusInfectedRest, Rng.nextFloat_eq,
    Rng.nextInt_eq, traceInfected, traceExposed, traceSevere, baseHuman,
    envAt, Human.get_vaccine_protection,
    get_param_for_age, get_age_group, AGE_GROUPS,
    SUSCEPTIBILITY_BY_AGE, TRANSMISSIBILITY_BY_AGE, IFR_BY_AGE,
    HOSPITALIZATION_RATE_BY_AGE, SYMPTOMATIC_RATE_BY_AGE,
    show (1 : ℝ) ⊔ ((4 : ℕ) : ℝ) = 4 from max_eq_right (by norm_num)]
  rw [if_neg (by decide : ¬ (InfectionSeverity.Asymptomatic = InfectionSeverity.Severe))]

/-- Helper: day 3 of the C3 trace — the death roll passes while severity
is Severe; the agent dies with severity left at Severe. -/
theorem trace_step4 :
    (Human.status traceSevere (envAt 3) ⟨[0], []⟩).1 = traceDead := by
  norm_num [Human.status, Rng.nextFloat_eq, traceSevere, traceInfected,
    traceExposed, traceDead, baseHuman, envAt,
    Human.get_vaccine_protection,
    get_param_for_age, get_age_group, AGE_GROUPS,
    SUSCEPTIBILITY_BY_AGE, TRANSMISSIBILITY_BY_AGE, IFR_BY_AGE,
    HOSPITALIZATION_RATE_BY_AGE, SYMPTOMATIC_RATE_BY_AGE,
    show max (1 : ℤ) ((4 : ℤ) - 5) = 1 by decide]

/-- Helper: the concrete fresh agent satisfies the `__init__`
constraints. -/
theorem baseHuman_init : InitHuman (baseHuman 0 30) := by
  refine ⟨rfl, rfl, rfl, rfl, rfl, rfl, rfl, rfl, ?_, ?_, rfl, rfl, rfl,
    rfl, rfl, rfl, rfl, rfl, rfl, rfl, rfl, rfl, rfl, rfl, rfl⟩ <;>
    norm_num [baseHuman]

/-- Helper: the C3 trace endpoint is reachable. -/
theorem traceDead_reachable : Reachable traceDead := by
  have h0 : InitHuman (baseHuman 0 30) := baseHuman_init
  have h1 : Reachable traceExposed := by
    rw [← trace_step1]
    exact Reachable.infected infectedSender (baseHuman 0 30) _ _ _
      (Reachable.init _ h0) rfl
  have h2 : Reachable traceInfected := by
    rw [← trace_step2]; exact Reachable.statusStep _ _ _ h1
  have h3 : Reachable traceSevere := by
    rw [← trace_step3]; exact Reachable.statusStep _ _ _ h2
  rw [← trace_step4]; exact Reachable.statusStep _ _ _ h3

/-- Counterexample to claim C3 as stated: the claim's invariant —
severity holds the default (Asymptomatic) value in every non-INFECTED
state, *including DIED* — fails on a reachable agent: a severe case that
dies keeps severity Severe forever (death does not reset the severity
field).  The state-closure half of the claim is trivially true of the
embedding; the witness agent `traceDead` is DIED with severity Severe. -/
theorem state_severity_default_cex :
    ¬ (∀ a : Human, Reachable a →
        (a.state = .SUSCEPTIBLE ∨ a.state = .INFECTED ∨ a.state = .RECOVERED ∨
          a.state = .DIED ∨ a.state = .EXPOSED) ∧
        (a.state ≠ .INFECTED → a.severity = .Asymptomatic)) := by
  intro h
  have hd := (h traceDead traceDead_reachable).2
    (by rw [show traceDead.state = InfectionState.DIED from rfl]; decide)
  rw [show traceDead.severity = InfectionSeverity.Severe from rfl] at hd
  cases hd

/-- Helper: the `EXPOSED` branch of `status` keeps the state or turns it
INFECTED, never touching the severity. -/
theorem statusExposed_cases (a : Human) (env : ModelEnv) (g : Rng) :
    ((a.statusExposed env g).1.state = a.state ∨
      (a.statusExposed env g).1.state = .INFECTED) ∧
    (a.statusExposed env g).1.severity = a.severity := by
  simp only [Human.statusExposed, Rng.nextFloat_eq, Rng.nextInt_eq]
  split_ifs <;> first
    | exact ⟨Or.inr rfl, rfl⟩
    | exact ⟨Or.inl rfl, rfl⟩

/-- Helper: the tail of the INFECTED branch of `status` either keeps the
state or sets RECOVERED with severity reset to Asymptomatic. -/
theorem statusInfectedRest_cases (a : Human) (env : ModelEnv) (g : Rng) :
    (a.statusInfectedRest env g).1.state = a.state ∨
    ((a.statusInfectedRest env g).1.state = .RECOVERED ∧
      (a.statusInfectedRest env g).1.severity = .Asymptomatic) := by
  simp only [Human.statusInfectedRest, Rng.nextFloat_eq, Rng.nextInt_eq]
  split_ifs <;> first
    | exact Or.inl rfl
    | exact Or.inr ⟨rfl, rfl⟩

/-- Helper: the INFECTED branch of `status` keeps INFECTED, dies with the
severity it had (only possible from Severe), or recovers with severity
reset. -/
theorem statusInfected_cases (a : Human) (env : ModelEnv) (g : Rng)
    (hst : a.state = .INFECTED) :
    (a.status env g).1.state = .INFECTED ∨
    ((a.status env g).1.state = .DIED ∧
      (a.status env g).1.severity = a.severity ∧ a.severity = .Severe) ∨
    ((a.status env g).1.state = .RECOVERED ∧
      (a.status env g).1.severity = .Asymptomatic) := by
  simp only [Human.status, hst, Rng.nextFloat_eq]
  split
  next hsev =>
    split <;> split
    all_goals
      first
        | exact Or.inr (Or.inl ⟨rfl, rfl, hsev⟩)
        | exact (statusInfectedRest_cases a env ⟨g.floats.tail, g.ints⟩).elim
            (fun h => Or.inl (hst ▸ h)) (fun hh => Or.inr (Or.inr hh))
  next hsev =>
    exact (statusInfectedRest_cases a env g).elim
      (fun h => Or.inl (hst ▸ h)) (fun hh => Or.inr (Or.inr hh))

/-- Helper: one `status` update preserves the (amended) severity
invariant. -/
theorem status_preserves_invariant (a : Human) (env : ModelEnv) (g : Rng)
    (h1 : (a.state = .SUSCEPTIBLE ∨ a.state = .EXPOSED ∨ a.state = .RECOVERED) →
      a.severity = .Asymptomatic)
    (h2 : a.state = .DIED → a.severity = .Severe) :
    (((a.status env g).1.state = .SUSCEPTIBLE ∨
      (a.status env g).1.state = .EXPOSED ∨
      (a.status env g).1.state = .RECOVERED) →
      (a.status env g).1.severity = .Asymptomatic) ∧
    ((a.status env g).1.state = .DIED → (a.status env g).1.severity = .Severe) := by
  cases hst : a.state with
  | SUSCEPTIBLE =>
    simp only [Human.status, hst]
    exact ⟨fun _ => h1 (Or.inl hst), fun hd => nomatch hd⟩
  | DIED =>
    simp only [Human.status, hst]
    refine ⟨fun hmem => ?_, fun _ => h2 hst⟩
    rcases hmem with h | h | h <;> cases h
  | EXPOSED =>
    simp only [Human.status, hst]
    obtain ⟨hstc, hsev⟩ := statusExposed_cases a env g
    rw [hst] at hstc
    have hA : a.severity = .Asymptomatic := h1 (Or.inr (Or.inl hst))
    rcases hstc with h | h
    · exact ⟨fun _ => by rw [hsev, hA], fun hd => absurd hd (by rw [h]; decide)⟩
    · refine ⟨fun hmem => ?_, fun hd => absurd hd (by rw [h]; decide)⟩
      rcases hmem with h' | h' | h' <;> rw [h] at h' <;> cases h'
  | RECOVERED =>
    simp only [Human.status, hst]
    split_ifs
    · exact ⟨fun _ => rfl, fun hd => by cases hd⟩
    · exact ⟨fun _ => rfl, fun hd => by cases hd⟩
  | INFECTED =>
    rcases statusInfected_cases a env g hst with h | ⟨h, hsv, hsev⟩ | ⟨h, h'⟩
    · refine ⟨fun hmem => ?_, fun hd => absurd hd (by rw [h]; decide)⟩
      rcases hmem with h' | h' | h' <;> rw [h] at h' <;> cases h'
    · refine ⟨fun hmem => ?_, fun _ => hsv.trans hsev⟩
      rcases hmem with h' | h' | h' <;> rw [h] at h' <;> cases h'
    · exact ⟨fun _ => h', fun hd => absurd hd (by rw [h]; decide)⟩

/-- Helper: an `infect` call leaves the receiver unchanged, or sets it
EXPOSED (severity untouched) — the latter only from a SUSCEPTIBLE or
RECOVERED receiver. -/
theorem infect_receiver_cases (s o : Human) (layer : ContactLayer)
    (env : ModelEnv) (g : Rng) :
    (Human.infect s o layer env g).2.1 = o ∨
    ((Human.infect s o layer env g).2.1.state = .EXPOSED ∧
      (Human.infect s o layer env g).2.1.severity = o.severity ∧
      (o.state = .SUSCEPTIBLE ∨ o.state = .RECOVERED)) := by
  simp only [Human.infect, Rng.nextFloat_eq, Rng.nextInt_eq,
    sample_incubation_period, sample_infectious_duration]
  split
  next => exact Or.inl rfl
  next =>
    split
    next hSE =>
      split
      next hroll =>
        split
        next hS => exact Or.inr ⟨rfl, rfl, Or.inl hS⟩
        next => exact Or.inl rfl
      next => exact Or.inl rfl
    next hSE =>
      split
      next hR =>
        split
        next => exact Or.inr ⟨rfl, rfl, Or.inr hR⟩
        next => exact Or.inl rfl
      next => exact Or.inl rfl

/-- Claim C3 (amended): for every reachable agent, severity holds the
default (Asymptomatic) whenever the state is SUSCEPTIBLE, EXPOSED or
RECOVERED — in particular severity is reset on recovery — but a DIED
agent is not default: it permanently retains the Severe severity it had
at the moment of death. -/
theorem state_severity_default_amended (a : Human) (h : Reachable a) :
    ((a.state = .SUSCEPTIBLE ∨ a.state = .EXPOSED ∨ a.state = .RECOVERED) →
      a.severity = .Asymptomatic) ∧
    (a.state = .DIED → a.severity = .Severe) := by
  induction h with
  | init a ha =>
    obtain ⟨hstate, hsev, _⟩ := ha
    exact ⟨fun _ => hsev, fun hd => by rw [hstate] at hd; cases hd⟩
  | statusStep a env g hr ih =>
    exact status_preserves_invariant a env g ih.1 ih.2
  | infected s a layer env g hr hs ih =>
    rcases infect_receiver_cases s a layer env g with h | ⟨h1, h2, h3⟩
    · rw [h]; exact ih
    · refine ⟨fun _ => ?_, fun hd => absurd hd (by rw [h1]; decide)⟩
      rw [h2]
      rcases h3 with h3 | h3
      · exact ih.1 (Or.inl h3)
      · exact ih.1 (Or.inr (Or.inr h3))

/-- Witness for the amended claim C3 at the concrete fresh agent. -/
theorem state_severity_default_amended_witness :
    InitHuman (baseHuman 0 30) ∧ (baseHuman 0 30).severity = .Asymptomatic :=
  ⟨baseHuman_init,
   (state_severity_default_amended (baseHuman 0 30)
     (Reachable.init _ baseHuman_init)).1 (Or.inl rfl)⟩

/-- Helper: folding the legacy R0 loop body over a list yields the
induced-infection count of the *last* agent with `infected_others`, or
the initial accumulator when there is none. -/
theorem foldl_last_spreader (l : List Legacy.LHuman) (r0 : ℚ) :
    l.foldl (fun r a => if a.infected_others then (a.induced_infections : ℚ) else r) r0 =
    (((l.filter (fun a => a.infected_others)).getLast?).map
      (fun a => (a.induced_infections : ℚ))).getD r0 := by
  induction l generalizing r0 with
  | nil => rfl
  | cons a l ih =>
    simp only [List.foldl_cons, List.filter_cons]
    by_cases ha : a.infected_others
    · simp only [ha, if_true]
      rw [ih]
      cases hfl : l.filter (fun a => a.infected_others) with
      | nil => simp
      | cons b bs =>
        cases h2 : (b :: bs).getLast? with
        | none => simp [List.getLast?_eq_none_iff] at h2
        | some x => simp [h2]
    · simp only [ha, if_false]
      rw [ih]
      simp [ha]

/-- Counterexample to claim C2 as stated: after `compute`, R0 is *not*
the arithmetic mean of `induced_infections` over the spreaders.  With two
spreaders (counts 1 and 3) the mean is 2, but the legacy loop overwrites
`self.R0` once per spreader with `np.average(np.array(count))` — a scalar
— so the final value is the last spreader's own count, 3. -/
theorem computeL_R0_not_mean_cex :
    (Legacy.computeL Legacy.twoSpreaders).R0 ≠
      (((Legacy.twoSpreaders.scheduleAgents.filter
          (fun a => a.infected_others)).map
        (fun a => (a.induced_infections : ℚ))).sum /
       (((Legacy.twoSpreaders.scheduleAgents.filter
          (fun a => a.infected_others)).length : ℚ))) := by
  norm_num [Legacy.computeL, Legacy.twoSpreaders, Legacy.LModel.scheduleAgents,
    Legacy.lbase]

/-- Claim C2 (amended): after every `compute` pass, the legacy model's R0
equals the `induced_infections` count of the **last** agent in scheduler
order whose `infected_others` flag is set — not the mean over all such
agents — and when no agent has spread, R0 keeps its previous value
instead of being recomputed from scratch. -/
theorem computeL_R0_last_spreader (m : Legacy.LModel) :
    (Legacy.computeL m).R0 =
    (((m.scheduleAgents.filter (fun a => a.infected_others)).getLast?).map
      (fun a => (a.induced_infections : ℚ))).getD m.R0 := by
  simp only [Legacy.computeL]
  exact foldl_last_spreader _ _

/-- Helper: evaluation of the C1 run-A construction. -/
theorem c1_init_A :
    Legacy.initModel Legacy.cfgOne Legacy.seedStream Legacy.npStreamA =
    Legacy.modelInit ([0] : List ℚ) := by
  norm_num [Legacy.initModel, Legacy.createAgent, Legacy.distributeWealth,
    Legacy.LModel.collect, Legacy.LModel.scheduleAgents,
    Legacy.LModel.setAgent, Legacy.LModel.get_recovery_time,
    Legacy.npChoice01, Legacy.pyInt, choiceIdx, basic_income,
    Legacy.lorenz_curve, Legacy.cfgOne, Legacy.seedStream, Legacy.npStreamA,
    Legacy.LRand.nextFloat, Legacy.LRand.nextNormal, Legacy.NpRand.next,
    Legacy.modelInit, Legacy.agentInit, Legacy.snapInit,
    List.range_succ, List.range_zero, show Rat.floor 0 = 0 from rfl]

/-- Helper: evaluation of the C1 run-B construction (identical to run A
up to the remaining numpy stream). -/
theorem c1_init_B :
    Legacy.initModel Legacy.cfgOne Legacy.seedStream Legacy.npStreamB =
    Legacy.modelInit ([1/2] : List ℚ) := by
  norm_num [Legacy.initModel, Legacy.createAgent, Legacy.distributeWealth,
    Legacy.LModel.collect, Legacy.LModel.scheduleAgents,
    Legacy.LModel.setAgent, Legacy.LModel.get_recovery_time,
    Legacy.npChoice01, Legacy.pyInt, choiceIdx, basic_income,
    Legacy.lorenz_curve, Legacy.cfgOne, Legacy.seedStream, Legacy.npStreamB,
    Legacy.LRand.nextFloat, Legacy.LRand.nextNormal, Legacy.NpRand.next,
    Legacy.modelInit, Legacy.agentInit, Legacy.snapInit,
    List.range_succ, List.range_zero, show Rat.floor 0 = 0 from rfl]

/-- Helper: the day-1 `status` of C1 run A (global numpy death roll 0
kills the agent). -/
theorem c1_status_A : Legacy.statusL Legacy.mA_sched 0 = Legacy.mA_status := by
  norm_num [Legacy.statusL, Legacy.LModel.getAgent, Legacy.LModel.setAgent,
    Legacy.npChoice01, Legacy.mA_sched, Legacy.mA_status, Legacy.modelInit,
    Legacy.agentInit, Legacy.agentDead, Legacy.cfgOne, Legacy.NpRand.next,
    Legacy.snapInit]

/-- Helper: the day-1 `move` of C1 run A. -/
theorem c1_move_A : Legacy.moveL Legacy.mA_status 0 = Legacy.mA_move := by
  norm_num [Legacy.moveL, Legacy.LModel.getAgent, Legacy.LModel.setAgent,
    Legacy.neighborhood, choiceIdx, Legacy.LRand.nextFloat,
    Legacy.mA_status, Legacy.mA_sched, Legacy.mA_move, Legacy.modelInit,
    Legacy.agentInit, Legacy.agentDead, Legacy.cfgOne, Legacy.snapInit,
    show Rat.floor 0 = 0 from rfl]

/-- Helper: the day-1 `interact` of C1 run A (the only neighbor is the
agent itself, already dead, so nothing happens). -/
theorem c1_inter_A : Legacy.interactL Legacy.mA_move 0 = Legacy.mA_move := by
  norm_num [Legacy.interactL, Legacy.infectL, Legacy.LModel.getAgent,
    Legacy.LModel.setAgent, Legacy.mA_move, Legacy.mA_status,
    Legacy.mA_sched, Legacy.modelInit, Legacy.agentInit, Legacy.agentDead,
    Legacy.cfgOne, Legacy.snapInit]

/-- Helper: the day-1 wealth update of C1 run A. -/
theorem c1_wealth_A : Legacy.updateWealthL Legacy.mA_move 0 = Legacy.mA_wealth := by
  norm_num [Legacy.updateWealthL, Legacy.LModel.getAgent,
    Legacy.LModel.setAgent, basic_income, Legacy.LRand.nextFloat,
    Legacy.mA_move, Legacy.mA_status, Legacy.mA_sched, Legacy.mA_wealth,
    Legacy.modelInit, Legacy.agentInit, Legacy.agentDead, Legacy.cfgOne,
    Legacy.snapInit]

/-- Helper: the composed day-1 agent step of C1 run A. -/
theorem c1_astep_A : Legacy.agentStepL Legacy.mA_sched 0 = Legacy.mA_wealth := by
  simp only [Legacy.agentStepL]
  rw [c1_status_A, c1_move_A, c1_inter_A, c1_wealth_A]

/-- Helper: the C1 run-A scheduler step reduced to the agent step. -/
theorem c1_plumb_A :
    Legacy.scheduleStepL (Legacy.modelInit ([0] : List ℚ)) =
    {(Legacy.agentStepL Legacy.mA_sched 0) with
      time := (Legacy.agentStepL Legacy.mA_sched 0).time + 1} := by
  norm_num [Legacy.scheduleStepL, Legacy.shuffleL, Legacy.LModel.scheduleAgents,
    Legacy.LModel.getAgent, choiceIdx, Legacy.LRand.nextFloat, Legacy.modelInit,
    Legacy.agentInit, Legacy.mA_sched, Legacy.snapInit, Legacy.cfgOne,
    show Rat.floor 0 = 0 from rfl]

/-- Helper: the full day-1 scheduler step of C1 run A. -/
theorem c1_sched_A :
    Legacy.scheduleStepL (Legacy.modelInit ([0] : List ℚ)) = Legacy.mA_step := by
  rw [c1_plumb_A, c1_astep_A]
  norm_num [Legacy.mA_wealth, Legacy.mA_move, Legacy.mA_status,
    Legacy.mA_sched, Legacy.mA_step, Legacy.modelInit, Legacy.agentInit,
    Legacy.agentDead, Legacy.snapInit]

/-- Helper: the day-1 `status` of C1 run B (death roll 1/2 spares the
agent). -/
theorem c1_status_B : Legacy.statusL Legacy.mB_sched 0 = Legacy.mB_status := by
  norm_num [Legacy.statusL, Legacy.LModel.getAgent, Legacy.LModel.setAgent,
    Legacy.npChoice01, Legacy.mB_sched, Legacy.mB_status, Legacy.modelInit,
    Legacy.agentInit, Legacy.cfgOne, Legacy.NpRand.next, Legacy.snapInit]

/-- Helper: the day-1 `move` of C1 run B. -/
theorem c1_move_B : Legacy.moveL Legacy.mB_status 0 = Legacy.mB_move := by
  norm_num [Legacy.moveL, Legacy.LModel.getAgent, Legacy.LModel.setAgent,
    Legacy.neighborhood, choiceIdx, Legacy.LRand.nextFloat,
    Legacy.mB_status, Legacy.mB_sched, Legacy.mB_move, Legacy.modelInit,
    Legacy.agentInit, Legacy.cfgOne, Legacy.snapInit,
    show Rat.floor 0 = 0 from rfl]

/-- Helper: the day-1 `interact` of C1 run B (self-infection attempt on
an already INFECTED agent is a no-op). -/
theorem c1_inter_B : Legacy.interactL Legacy.mB_move 0 = Legacy.mB_move := by
  norm_num [Legacy.interactL, Legacy.infectL, Legacy.LModel.getAgent,
    Legacy.LModel.setAgent, Legacy.mB_move, Legacy.mB_status,
    Legacy.mB_sched, Legacy.modelInit, Legacy.agentInit, Legacy.cfgOne,
    Legacy.snapInit]
  exact fun h1 h2 => absurd h2 (by decide)

/-- Helper: the day-1 wealth update of C1 run B (a Severe agent earns
nothing). -/
theorem c1_wealth_B : Legacy.updateWealthL Legacy.mB_move 0 = Legacy.mB_wealth := by
  norm_num [Legacy.updateWealthL, Legacy.LModel.getAgent,
    Legacy.LModel.setAgent, basic_income, Legacy.LRand.nextFloat,
    Legacy.mB_move, Legacy.mB_status, Legacy.mB_sched, Legacy.mB_wealth,
    Legacy.modelInit, Legacy.agentInit, Legacy.cfgOne, Legacy.snapInit]

/-- Helper: the composed day-1 agent step of C1 run B. -/
theorem c1_astep_B : Legacy.agentStepL Legacy.mB_sched 0 = Legacy.mB_wealth := by
  simp only [Legacy.agentStepL]
  rw [c1_status_B, c1_move_B, c1_inter_B, c1_wealth_B]

/-- Helper: the C1 run-B scheduler step reduced to the agent step. -/
theorem c1_plumb_B :
    Legacy.scheduleStepL (Legacy.modelInit ([1/2] : List ℚ)) =
    {(Legacy.agentStepL Legacy.mB_sched 0) with
      time := (Legacy.agentStepL Legacy.mB_sched 0).time + 1} := by
  norm_num [Legacy.scheduleStepL, Legacy.shuffleL, Legacy.LModel.scheduleAgents,
    Legacy.LModel.getAgent, choiceIdx, Legacy.LRand.nextFloat, Legacy.modelInit,
    Legacy.agentInit, Legacy.mB_sched, Legacy.snapInit, Legacy.cfgOne,
    show Rat.floor 0 = 0 from rfl]

/-- Helper: the full day-1 scheduler step of C1 run B. -/
theorem c1_sched_B :
    Legacy.scheduleStepL (Legacy.modelInit ([1/2] : List ℚ)) = Legacy.mB_step := by
  rw [c1_plumb_B, c1_astep_B]
  norm_num [Legacy.mB_wealth, Legacy.mB_move, Legacy.mB_status,
    Legacy.mB_sched, Legacy.mB_step, Legacy.modelInit, Legacy.agentInit,
    Legacy.snapInit]

/-- Helper: aggregation of C1 run A at day 1. -/
theorem c1_comp_A :
    Legacy.computeWealthL (Legacy.computeL Legacy.mA_step) = Legacy.mA_compw := by
  norm_num [Legacy.computeL, Legacy.computeWealthL,
    Legacy.LModel.scheduleAgents, Legacy.mA_step, Legacy.mA_wealth,
    Legacy.mA_move, Legacy.mA_status, Legacy.mA_sched, Legacy.mA_comp,
    Legacy.mA_compw, Legacy.modelInit, Legacy.agentInit, Legacy.agentDead,
    Legacy.snapInit]

/-- Helper: aggregation of C1 run B at day 1. -/
theorem c1_comp_B :
    Legacy.computeWealthL (Legacy.computeL Legacy.mB_step) = Legacy.mB_compw := by
  norm_num [Legacy.computeL, Legacy.computeWealthL,
    Legacy.LModel.scheduleAgents, Legacy.mB_step, Legacy.mB_wealth,
    Legacy.mB_move, Legacy.mB_status, Legacy.mB_sched, Legacy.mB_comp,
    Legacy.mB_compw, Legacy.modelInit, Legacy.agentInit, Legacy.snapInit]
  exact ⟨by decide, by decide⟩

/-- Helper: the full snapshot list of C1 run A. -/
theorem c1_run_A :
    Legacy.run Legacy.cfgOne 1 Legacy.seedStream Legacy.npStreamA =
    [Legacy.snapInit, Legacy.snapA] := by
  simp only [Legacy.run, List.range_succ, List.range_zero, List.nil_append,
    List.foldl_cons, List.foldl_nil]
  rw [c1_init_A]
  simp only [Legacy.LModel.step]
  rw [c1_sched_A, c1_comp_A]
  norm_num [Legacy.LModel.collect, Legacy.mA_compw, Legacy.mA_comp,
    Legacy.mA_step, Legacy.mA_wealth, Legacy.mA_move, Legacy.mA_status,
    Legacy.mA_sched, Legacy.modelInit, Legacy.snapInit, Legacy.snapA]

/-- Helper: the full snapshot list of C1 run B. -/
theorem c1_run_B :
    Legacy.run Legacy.cfgOne 1 Legacy.seedStream Legacy.npStreamB =
    [Legacy.snapInit, Legacy.snapB] := by
  simp only [Legacy.run, List.range_succ, List.range_zero, List.nil_append,
    List.foldl_cons, List.foldl_nil]
  rw [c1_init_B]
  simp only [Legacy.LModel.step]
  rw [c1_sched_B, c1_comp_B]
  norm_num [Legacy.LModel.collect, Legacy.mB_compw, Legacy.mB_comp,
    Legacy.mB_step, Legacy.mB_wealth, Legacy.mB_move, Legacy.mB_status,
    Legacy.mB_sched, Legacy.modelInit, Legacy.snapInit, Legacy.snapB]

/-- Claim C1 (refuting theorem): two legacy runs with the identical
configuration and the identical seeded stream, differing only in the
state of the process-global numpy source (which `model.py` consumes via
`np.random.choice` for the initial-infection, death and severity draws,
and which is not derived from the model seed), produce different
per-step snapshots: with `npStreamA` the single agent dies on day 1
(dead = 1), with `npStreamB` it survives (infected = 1, dead = 0).
Hence the per-step snapshots are not a function of (configuration,
seed) alone, refuting the claim. -/
theorem run_np_divergence :
    Legacy.run Legacy.cfgOne 1 Legacy.seedStream Legacy.npStreamA ≠
    Legacy.run Legacy.cfgOne 1 Legacy.seedStream Legacy.npStreamB := by
  rw [c1_run_A, c1_run_B]
  intro h
  have h2 := (List.cons.inj h).2
  have h3 := (List.cons.inj h2).1
  have h4 := congrArg Legacy.Snapshot.dead h3
  norm_num [Legacy.snapA, Legacy.snapB] at h4

/-- Helper: removing the element at a valid index and re-consing it in
front is a permutation of the original list. -/
theorem getD_cons_eraseIdx_perm (l : List α) (d : α) :
    ∀ i, i < l.length → List.Perm (l.getD i d :: l.eraseIdx i) l := by
  induction l with
  | nil => intro i hi; simp at hi
  | cons x xs ih =>
    intro i hi
    cases i with
    | zero => simp [List.getD]
    | succ j =>
      have hj : j < xs.length := by simpa using hi
      have h1 : (x :: xs).getD (j+1) d = xs.getD j d := by simp [List.getD]
      have h2 : (x :: xs).eraseIdx (j+1) = x :: xs.eraseIdx j := rfl
      rw [h1, h2]
      exact (List.Perm.swap x (xs.getD j d) _).trans ((ih j hj).cons x)

/-- Helper: `Rng.shuffle` returns a permutation of its input. -/
theorem shuffle_perm :
    ∀ n (l : List α), l.length ≤ n → ∀ g : Rng,
      List.Perm (Rng.shuffle l g).1 l := by
  intro n
  induction n with
  | zero =>
    intro l hl g
    match l with
    | [] => simp [Rng.shuffle]
  | succ n ih =>
    intro l hl g
    match l with
    | [] => simp [Rng.shuffle]
    | x :: xs =>
      rw [Rng.shuffle]
      have hi : (g.nextInt.1.natAbs % (x :: xs).length) < (x :: xs).length :=
        Nat.mod_lt _ (by simp)
      exact ((ih _ (by
        rw [List.length_eraseIdx_of_lt hi]
        simp only [List.length_cons] at hl ⊢
        omega) _).cons _).trans (getD_cons_eraseIdx_perm (x :: xs) x _ hi)

/-- Helper: the uid groups produced by `sliceGroups` partition the input:
their concatenation, in order, is exactly the uid list of the input. -/
theorem sliceGroups_flatten (d : Rng → ℕ × Rng) (s : Human → ℤ → List ℕ → Human) :
    ∀ n, ∀ l : List Human, l.length ≤ n → ∀ g i,
      ((sliceGroups d s l g i).2.1).flatten = l.map Human.uid := by
  intro n
  induction n with
  | zero =>
    intro l hl g i
    have hl0 : l = [] := List.eq_nil_of_length_eq_zero (Nat.le_zero.mp hl)
    subst hl0
    simp [sliceGroups]
  | succ n ih =>
    intro l hl g i
    cases l with
    | nil => simp [sliceGroups]
    | cons x xs =>
      rw [sliceGroups]
      rcases hdg : d g with ⟨sz, g1⟩
      simp only [hdg]
      rcases hrec : sliceGroups d s ((x :: xs).drop (min (max 1 sz) (x :: xs).length)) g1 (i+1)
        with ⟨rest, groups, g2⟩
      simp only [hrec]
      have hle : ((x :: xs).drop (min (max 1 sz) (x :: xs).length)).length ≤ n := by
        simp only [List.length_drop, List.length_cons] at hl ⊢
        omega
      have hIH := ih ((x :: xs).drop (min (max 1 sz) (x :: xs).length)) hle g1 (i+1)
      rw [hrec] at hIH
      simp only at hIH
      simp only [List.flatten_cons, hIH, ← List.map_append, List.take_append_drop]

/-- Helper: a field reading that the group stamp leaves unchanged is
unchanged across `sliceGroups` on every returned agent. -/
theorem sliceGroups_map (d : Rng → ℕ × Rng) (s : Human → ℤ → List ℕ → Human)
    (f : Human → β) (hf : ∀ a i ids, f (s a i ids) = f a) :
    ∀ n, ∀ l : List Human, l.length ≤ n → ∀ g i,
      ((sliceGroups d s l g i).1).map f = l.map f := by
  intro n
  induction n with
  | zero =>
    intro l hl g i
    have hl0 : l = [] := List.eq_nil_of_length_eq_zero (Nat.le_zero.mp hl)
    subst hl0
    simp [sliceGroups]
  | succ n ih =>
    intro l hl g i
    cases l with
    | nil => simp [sliceGroups]
    | cons x xs =>
      rw [sliceGroups]
      rcases hdg : d g with ⟨sz, g1⟩
      simp only [hdg]
      rcases hrec : sliceGroups d s ((x :: xs).drop (min (max 1 sz) (x :: xs).length)) g1 (i+1)
        with ⟨rest, groups, g2⟩
      simp only [hrec]
      have hle : ((x :: xs).drop (min (max 1 sz) (x :: xs).length)).length ≤ n := by
        simp only [List.length_drop, List.length_cons] at hl ⊢
        omega
      have hIH := ih ((x :: xs).drop (min (max 1 sz) (x :: xs).length)) hle g1 (i+1)
      rw [hrec] at hIH
      simp only at hIH
      have hstamp : ((x :: xs).take (min (max 1 sz) (x :: xs).length)).map
          (fun a => f (s a (i : ℤ) (((x :: xs).take (min (max 1 sz) (x :: xs).length)).map Human.uid)))
          = ((x :: xs).take (min (max 1 sz) (x :: xs).length)).map f :=
        List.map_congr_left (fun a _ => hf a _ _)
      simp only [List.map_append, List.map_map]
      rw [show ((fun a => f a) ∘ (fun a => s a (i : ℤ) (((x :: xs).take (min (max 1 sz) (x :: xs).length)).map Human.uid))) = (fun a => f (s a (i : ℤ) (((x :: xs).take (min (max 1 sz) (x :: xs).length)).map Human.uid))) from rfl] at *
      rw [hstamp, hIH, ← List.map_append, List.take_append_drop]

/-- Helper: when the concatenation of the groups has no duplicate uid,
the number of groups containing a uid is 1 if the uid occurs at all and
0 otherwise. -/
theorem groupCount_of_flatten_nodup (u : ℕ) :
    ∀ gs : List (List ℕ), gs.flatten.Nodup →
      groupCount u gs = if u ∈ gs.flatten then 1 else 0 := by
  intro gs
  induction gs with
  | nil => intro h; simp [groupCount]
  | cons grp rest ih =>
    intro h
    rw [List.flatten_cons, List.nodup_append] at h
    obtain ⟨h1, h2, hdisj⟩ := h
    have hcc : groupCount u (grp :: rest) =
        (if u ∈ grp then 1 else 0) + groupCount u rest := by
      simp only [groupCount, List.filter_cons]
      split <;> simp_all <;> omega
    rw [hcc, ih h2]
    by_cases hg : u ∈ grp
    · have hnr : u ∉ rest.flatten := fun hmem => hdisj hg hmem
      simp [hg, hnr, List.flatten_cons]
    · simp [hg, List.flatten_cons, List.mem_append]

/-- Helper: membership count is at most 1 under a duplicate-free
concatenation. -/
theorem groupCount_le_one (u : ℕ) (gs : List (List ℕ)) (h : gs.flatten.Nodup) :
    groupCount u gs ≤ 1 := by
  rw [groupCount_of_flatten_nodup u gs h]
  split <;> omega

/-- Helper: membership count is exactly 1 for a uid occurring in a
duplicate-free concatenation. -/
theorem groupCount_eq_one (u : ℕ) (gs : List (List ℕ)) (h : gs.flatten.Nodup)
    (hm : u ∈ gs.flatten) : groupCount u gs = 1 := by
  rw [groupCount_of_flatten_nodup u gs h, if_pos hm]

/-- Helper: a uid that occurs in no group has membership count 0. -/
theorem groupCount_eq_zero (u : ℕ) (gs : List (List ℕ)) (hm : u ∉ gs.flatten) :
    groupCount u gs = 0 := by
  simp only [groupCount, List.length_eq_zero, List.filter_eq_nil_iff]
  intro grp hg hu
  exact hm (List.mem_flatten.mpr ⟨grp, hg, by simpa using hu⟩)

/-- Helper: the household groups concatenate to a permutation of the
uid list of the whole agent collection. -/
theorem build_households_flatten_perm (agents : List Human) (g : Rng) :
    List.Perm ((build_households agents g).2.1).flatten (agents.map Human.uid) := by
  rw [build_households]
  rcases hs : Rng.shuffle agents g with ⟨sh, g1⟩
  simp only [hs]
  rw [sliceGroups_flatten _ _ sh.length sh (le_refl _) g1 0]
  have hp : List.Perm sh agents := by
    have h2 := shuffle_perm agents.length agents (le_refl _) g
    rw [hs] at h2
    exact h2
  exact hp.map Human.uid

/-- Helper: `build_households` returns the agents with unchanged uids,
up to order. -/
theorem build_households_map_uid (agents : List Human) (g : Rng) :
    List.Perm (((build_households agents g).1).map Human.uid) (agents.map Human.uid) := by
  rw [build_households]
  rcases hs : Rng.shuffle agents g with ⟨sh, g1⟩
  simp only [hs]
  rw [sliceGroups_map _ (fun a i ids => {a with household_id := i, household_members := ids})
    Human.uid (fun a i ids => rfl) sh.length sh (le_refl _) g1 0]
  have hp : List.Perm sh agents := by
    have h2 := shuffle_perm agents.length agents (le_refl _) g
    rw [hs] at h2
    exact h2
  exact hp.map Human.uid

/-- Helper: the school classes concatenate to a permutation of the uid
list of the school-age agents. -/
theorem build_schools_flatten_perm (a : List Human) (g : Rng) :
    List.Perm ((build_schools a g).2.1).flatten ((a.filter isStudentAge).map Human.uid) := by
  rw [build_schools]
  rcases hs : Rng.shuffle (a.filter isStudentAge) g with ⟨sh, g1⟩
  simp only [hs]
  rcases hsg : sliceGroups (fun g => Rng.randint 15 35 g)
      (fun a i ids => {a with school_id := i, school_members := ids})
      (sh.map (fun a => {a with is_student := true})) g1 0 with ⟨st, gr, g2⟩
  simp only [hsg]
  have h1 := sliceGroups_flatten (fun g => Rng.randint 15 35 g)
      (fun a i ids => {a with school_id := i, school_members := ids})
      (sh.map (fun a => {a with is_student := true})).length
      (sh.map (fun a => {a with is_student := true})) (le_refl _) g1 0
  rw [hsg] at h1
  simp only at h1
  rw [h1, List.map_map]
  have h2 : (Human.uid ∘ fun a : Human => {a with is_student := true}) = Human.uid := rfl
  rw [h2]
  have hp : List.Perm sh (a.filter isStudentAge) := by
    have h3 := shuffle_perm (a.filter isStudentAge).length (a.filter isStudentAge) (le_refl _) g
    rw [hs] at h3
    exact h3
  exact hp.map Human.uid

/-- Helper: after `build_schools`, the worker pool of the returned
collection is exactly the worker pool of the non-school-age agents: the
builder flags every school-age agent with `is_student`, and `isWorker`
excludes students. -/
theorem build_schools_filter_worker (a : List Human) (g : Rng) :
    ((build_schools a g).1).filter isWorker =
    (a.filter (fun x => ¬isStudentAge x)).filter isWorker := by
  rw [build_schools]
  rcases hs : Rng.shuffle (a.filter isStudentAge) g with ⟨sh, g1⟩
  simp only [hs]
  rcases hsg : sliceGroups (fun g => Rng.randint 15 35 g)
      (fun a i ids => {a with school_id := i, school_members := ids})
      (sh.map (fun a => {a with is_student := true})) g1 0 with ⟨st, gr, g2⟩
  simp only [hsg]
  rw [List.filter_append]
  have hstu : st.filter isWorker = [] := by
    rw [List.filter_eq_nil_iff]
    intro b hb
    have hmap := sliceGroups_map (fun g => Rng.randint 15 35 g)
        (fun a i ids => {a with school_id := i, school_members := ids})
        Human.is_student (fun a i ids => rfl)
        (sh.map (fun a => {a with is_student := true})).length
        (sh.map (fun a => {a with is_student := true})) (le_refl _) g1 0
    rw [hsg] at hmap
    simp only at hmap
    have hmem : b.is_student ∈ st.map Human.is_student := List.mem_map_of_mem _ hb
    rw [hmap, List.map_map] at hmem
    have hcomp : (Human.is_student ∘ fun a : Human => {a with is_student := true}) = fun _ => true := rfl
    rw [hcomp] at hmem
    rcases List.mem_map.mp hmem with ⟨e, he, hec⟩
    simp [isWorker, ← hec]
  rw [hstu, List.nil_append]

/-- Helper: the workplace groups concatenate to a permutation of the uid
list of the worker pool. -/
theorem build_workplaces_flatten_perm (a : List Human) (g : Rng) :
    List.Perm ((build_workplaces a g).2.1).flatten ((a.filter isWorker).map Human.uid) := by
  rw [build_workplaces]
  rcases hs : Rng.shuffle (a.filter isWorker) g with ⟨sh, g1⟩
  simp only [hs]
  rcases hsg : sliceGroups (fun g => Rng.randint 5 30 g)
      (fun a i ids => {a with workplace_id := i, workplace_members := ids})
      sh g1 0 with ⟨wk, gr, g2⟩
  simp only [hsg]
  have h1 := sliceGroups_flatten (fun g => Rng.randint 5 30 g)
      (fun a i ids => {a with workplace_id := i, workplace_members := ids})
      sh.length sh (le_refl _) g1 0
  rw [hsg] at h1
  simp only at h1
  rw [h1]
  have hp : List.Perm sh (a.filter isWorker) := by
    have h3 := shuffle_perm (a.filter isWorker).length (a.filter isWorker) (le_refl _) g
    rw [hs] at h3
    exact h3
  exact hp.map Human.uid

/-- Claim C8: over any agent collection with distinct uids, after the
contact network is built every agent belongs to exactly one household,
at most one workplace and at most one school; no agent belongs to both
a workplace and a school (workplace assignment excludes the agents that
`build_schools` flagged as students); and every group size is clipped to
the remaining pool, so no household, workplace or school exceeds the
agent count. -/
theorem contact_network_partition (agents : List Human) (g : Rng)
    (hnd : (agents.map Human.uid).Nodup) :
    (∀ a ∈ agents, groupCount a.uid (build_contact_network agents g).2.1 = 1) ∧
    (∀ a ∈ agents, groupCount a.uid (build_contact_network agents g).2.2.1 ≤ 1) ∧
    (∀ a ∈ agents, groupCount a.uid (build_contact_network agents g).2.2.2.1 ≤ 1) ∧
    (∀ a ∈ agents, groupCount a.uid (build_contact_network agents g).2.2.1 = 0 ∨
       groupCount a.uid (build_contact_network agents g).2.2.2.1 = 0) ∧
    (∀ grp ∈ (build_contact_network agents g).2.1, grp.length ≤ agents.length) ∧
    (∀ grp ∈ (build_contact_network agents g).2.2.1, grp.length ≤ agents.length) ∧
    (∀ grp ∈ (build_contact_network agents g).2.2.2.1, grp.length ≤ agents.length) := by
  rw [build_contact_network]
  rcases hH : build_households agents g with ⟨a1, H, g1⟩
  rcases hS : build_schools a1 g1 with ⟨a2, Sc, g2⟩
  rcases hW : build_workplaces a2 g2 with ⟨a3, W, g3⟩
  simp only [hH, hS, hW]
  have hHj : List.Perm H.flatten (agents.map Human.uid) := by
    have h := build_households_flatten_perm agents g
    rw [hH] at h
    exact h
  have hHnd : H.flatten.Nodup := hHj.nodup_iff.mpr hnd
  have ha1 : List.Perm (a1.map Human.uid) (agents.map Human.uid) := by
    have h := build_households_map_uid agents g
    rw [hH] at h
    exact h
  have ha1nd : (a1.map Human.uid).Nodup := ha1.nodup_iff.mpr hnd
  have hScj : List.Perm Sc.flatten ((a1.filter isStudentAge).map Human.uid) := by
    have h := build_schools_flatten_perm a1 g1
    rw [hS] at h
    exact h
  have hScnd : Sc.flatten.Nodup :=
    hScj.nodup_iff.mpr (ha1nd.sublist ((List.filter_sublist a1).map Human.uid))
  have ha2f : a2.filter isWorker = (a1.filter (fun x => ¬isStudentAge x)).filter isWorker := by
    have h := build_schools_filter_worker a1 g1
    rw [hS] at h
    exact h
  have hWj : List.Perm W.flatten
      (((a1.filter (fun x => ¬isStudentAge x)).filter isWorker).map Human.uid) := by
    have h := build_workplaces_flatten_perm a2 g2
    rw [hW] at h
    rw [ha2f] at h
    exact h
  have hWnd : W.flatten.Nodup := by
    refine hWj.nodup_iff.mpr (ha1nd.sublist ?_)
    exact (((List.filter_sublist _).trans (List.filter_sublist a1)).map Human.uid)
  refine ⟨?_, ?_, ?_, ?_, ?_, ?_, ?_⟩
  · intro a ha
    exact groupCount_eq_one _ _ hHnd (hHj.mem_iff.mpr (List.mem_map_of_mem _ ha))
  · intro a ha
    exact groupCount_le_one _ _ hWnd
  · intro a ha
    exact groupCount_le_one _ _ hScnd
  · intro a ha
    by_cases hu : a.uid ∈ Sc.flatten
    · left
      apply groupCount_eq_zero
      intro hw
      rcases List.mem_map.mp (hScj.mem_iff.mp hu) with ⟨b, hb, hbu⟩
      rcases List.mem_map.mp (hWj.mem_iff.mp hw) with ⟨c, hc, hcu⟩
      have hb1 := List.mem_filter.mp hb
      have hc1 := List.mem_filter.mp hc
      have hc2 := List.mem_filter.mp hc1.1
      have hbc : b = c :=
        List.inj_on_of_nodup_map ha1nd hb1.1 hc2.1 (by rw [hbu, hcu])
      have hbS : isStudentAge b = true := hb1.2
      have hcS : ¬ isStudentAge c = true := by
        have h := hc2.2
        simpa using h
      rw [hbc] at hbS
      exact hcS hbS
    · right
      exact groupCount_eq_zero _ _ hu
  · intro grp hg
    have h1 : grp.length ≤ H.flatten.length :=
      (List.sublist_flatten_of_mem hg).length_le
    have h2 : H.flatten.length = agents.length := by
      have h3 := hHj.length_eq
      simpa using h3
    omega
  · intro grp hg
    have h1 : grp.length ≤ W.flatten.length :=
      (List.sublist_flatten_of_mem hg).length_le
    have h2 : W.flatten.length ≤ agents.length := by
      have h3 := hWj.length_eq
      rw [List.length_map] at h3
      have h4 : ((a1.filter (fun x => ¬isStudentAge x)).filter isWorker).length ≤ a1.length :=
        le_trans (List.length_filter_le _ _) (List.length_filter_le _ _)
      have h5 : a1.length = agents.length := by
        have h6 := ha1.length_eq
        simpa using h6
      omega
    omega
  · intro grp hg
    have h1 : grp.length ≤ Sc.flatten.length :=
      (List.sublist_flatten_of_mem hg).length_le
    have h2 : Sc.flatten.length ≤ agents.length := by
      have h3 := hScj.length_eq
      rw [List.length_map] at h3
      have h4 : (a1.filter isStudentAge).length ≤ a1.length := List.length_filter_le _ _
      have h5 : a1.length = agents.length := by
        have h6 := ha1.length_eq
        simpa using h6
      omega
    omega

/-- Witness for C8: the two-agent collection `pairAgents` (uids 0 and 1,
ages 30 and 10) with an exhausted random source satisfies the
distinct-uid hypothesis and the partition conclusions. -/
theorem contact_network_partition_witness :
    (pairAgents.map Human.uid).Nodup ∧
    ((∀ a ∈ pairAgents, groupCount a.uid (build_contact_network pairAgents ⟨[], []⟩).2.1 = 1) ∧
    (∀ a ∈ pairAgents, groupCount a.uid (build_contact_network pairAgents ⟨[], []⟩).2.2.1 ≤ 1) ∧
    (∀ a ∈ pairAgents, groupCount a.uid (build_contact_network pairAgents ⟨[], []⟩).2.2.2.1 ≤ 1) ∧
    (∀ a ∈ pairAgents, groupCount a.uid (build_contact_network pairAgents ⟨[], []⟩).2.2.1 = 0 ∨
       groupCount a.uid (build_contact_network pairAgents ⟨[], []⟩).2.2.2.1 = 0) ∧
    (∀ grp ∈ (build_contact_network pairAgents ⟨[], []⟩).2.1, grp.length ≤ pairAgents.length) ∧
    (∀ grp ∈ (build_contact_network pairAgents ⟨[], []⟩).2.2.1, grp.length ≤ pairAgents.length) ∧
    (∀ grp ∈ (build_contact_network pairAgents ⟨[], []⟩).2.2.2.1, grp.length ≤ pairAgents.length)) :=
  ⟨by decide, contact_network_partition pairAgents ⟨[], []⟩ (by decide)⟩

end Covid
